import Mathlib

/-!
Shallow embedding of the RHI trade-listing core
(`src/features/trade_listing/{handlers/dvm.rs, state.rs, subscriber.rs}`).

Pure Rust functions become Lean functions; the mutex-guarded
`TradeListingState` aggregate becomes explicit state passing; outbound
transport sends become an accumulated list of outbound events; fallible
code returns `Except`.  Types owned by the external `radroots_trade` /
`radroots_nostr` crates (order statuses, message types, payload shapes,
events) are modelled from the specification, as noted on each definition.
-/

/-- Decidable equality for `Except`, needed to evaluate handler results on
concrete inputs. -/
instance {e a : Type} [DecidableEq e] [DecidableEq a] :
    DecidableEq (Except e a) := fun x y =>
  match x, y with
  | Except.ok u, Except.ok v =>
      if h : u = v then isTrue (by rw [h])
      else isFalse (by intro hc; cases hc; exact h rfl)
  | Except.ok _, Except.error _ => isFalse (by intro hc; cases hc)
  | Except.error _, Except.ok _ => isFalse (by intro hc; cases hc)
  | Except.error u, Except.error v =>
      if h : u = v then isTrue (by rw [h])
      else isFalse (by intro hc; cases hc; exact h rfl)

/-- Modelled from the spec (section 3): `TradeOrderStatus` from the external
`radroots_trade` crate, the tagged variant with the ten listed values. -/
inductive TradeOrderStatus
  | Draft
  | Validated
  | Requested
  | Questioned
  | Revised
  | Accepted
  | Declined
  | Cancelled
  | Fulfilled
  | Completed
deriving DecidableEq, Repr, Fintype

/-- Debug rendering of a status, as Rust derive(Debug) prints the bare
variant name (used by the `InvalidTransition` Display impl). -/
def statusDebug : TradeOrderStatus → String
  | .Draft => "Draft"
  | .Validated => "Validated"
  | .Requested => "Requested"
  | .Questioned => "Questioned"
  | .Revised => "Revised"
  | .Accepted => "Accepted"
  | .Declined => "Declined"
  | .Cancelled => "Cancelled"
  | .Fulfilled => "Fulfilled"
  | .Completed => "Completed"

/-- `TradeListingStateError` from `state.rs`. -/
inductive TradeListingStateError
  | MissingOrder
  | InvalidTransition (f t : TradeOrderStatus)
deriving DecidableEq, Repr

/-- Display of `TradeListingStateError` from `state.rs` (its `fmt` impl). -/
def stateErrorMessage : TradeListingStateError → String
  | .MissingOrder => "missing order state"
  | .InvalidTransition f t =>
      "invalid order transition: " ++ statusDebug f ++ " -> " ++ statusDebug t

/-- `ensure_transition` from `handlers/dvm.rs` lines 964-1012, translated
clause by clause: the `from == to` early return, then the `match` computing
`allowed`, then `Ok`/`Err(InvalidTransition)`. -/
def ensure_transition (f t : TradeOrderStatus) :
    Except TradeListingStateError Unit :=
  if f = t then Except.ok () else
  let allowed : Bool :=
    match f with
    | .Draft => t = TradeOrderStatus.Requested
    | .Validated => t = TradeOrderStatus.Requested
    | .Requested =>
        t = TradeOrderStatus.Accepted ∨ t = TradeOrderStatus.Declined ∨
        t = TradeOrderStatus.Questioned ∨ t = TradeOrderStatus.Revised ∨
        t = TradeOrderStatus.Cancelled ∨ t = TradeOrderStatus.Requested
    | .Questioned =>
        t = TradeOrderStatus.Requested ∨ t = TradeOrderStatus.Revised ∨
        t = TradeOrderStatus.Cancelled
    | .Revised =>
        t = TradeOrderStatus.Accepted ∨ t = TradeOrderStatus.Declined ∨
        t = TradeOrderStatus.Cancelled ∨ t = TradeOrderStatus.Requested
    | .Accepted => t = TradeOrderStatus.Fulfilled ∨ t = TradeOrderStatus.Cancelled
    | .Declined => false
    | .Cancelled => false
    | .Fulfilled =>
        t = TradeOrderStatus.Completed ∨ t = TradeOrderStatus.Fulfilled ∨
        t = TradeOrderStatus.Cancelled
    | .Completed => false
  if allowed then Except.ok ()
  else Except.error (TradeListingStateError.InvalidTransition f t)

/-- The transition pairs enumerated by the section-4.3 table of the spec,
written from the spec's words (not from the code) for comparison. -/
def specTransitionPair : TradeOrderStatus → TradeOrderStatus → Bool
  | .Draft, .Requested => true
  | .Validated, .Requested => true
  | .Requested, .Accepted => true
  | .Requested, .Declined => true
  | .Requested, .Questioned => true
  | .Requested, .Revised => true
  | .Requested, .Cancelled => true
  | .Questioned, .Requested => true
  | .Questioned, .Revised => true
  | .Questioned, .Cancelled => true
  | .Revised, .Accepted => true
  | .Revised, .Declined => true
  | .Revised, .Cancelled => true
  | .Revised, .Requested => true
  | .Accepted, .Fulfilled => true
  | .Accepted, .Cancelled => true
  | .Fulfilled, .Completed => true
  | .Fulfilled, .Cancelled => true
  | _, _ => false

/-- Terminal statuses per section 3 of the spec. -/
def isTerminalStatus : TradeOrderStatus → Bool
  | .Declined => true
  | .Cancelled => true
  | .Completed => true
  | _ => false

/-- C1: `ensure_transition(from, to)` returns `Ok` exactly for `from == to`
or a pair of the section-4.3 table, and for a terminal `from` and any
`to ≠ from` it returns `Err(InvalidTransition)`. -/
theorem C1_ensure_transition_matches_table :
    ∀ f t : TradeOrderStatus,
      (ensure_transition f t = Except.ok () ↔ (f = t ∨ specTransitionPair f t = true)) ∧
      (isTerminalStatus f = true → f ≠ t →
        ensure_transition f t =
          Except.error (TradeListingStateError.InvalidTransition f t)) := by
  decide

/-- Witness for C1 at a concrete input: `Declined → Accepted` is refused. -/
theorem C1_ensure_transition_matches_table_witness :
    ensure_transition TradeOrderStatus.Declined TradeOrderStatus.Accepted =
      Except.error (TradeListingStateError.InvalidTransition
        TradeOrderStatus.Declined TradeOrderStatus.Accepted) :=
  (C1_ensure_transition_matches_table TradeOrderStatus.Declined
    TradeOrderStatus.Accepted).2 (by decide) (by decide)

/-- Insert into a set represented as a duplicate-free list, mirroring Rust
`HashSet::insert` / `HashMap` key freshness under `contains`. -/
def setInsert (s : List String) (x : String) : List String :=
  if s.contains x then s else s ++ [x]

/-- `TradeOrderState` from `state.rs`; `seen_event_ids : HashSet<String>` is
modelled as a duplicate-free list under `List.contains`. -/
structure TradeOrderState where
  order_id : String
  listing_addr : String
  buyer_pubkey : String
  seller_pubkey : String
  status : TradeOrderStatus
  seen_event_ids : List String
deriving DecidableEq, Repr

/-- `TradeListingState` from `state.rs`; the `HashSet` of validated listings
and the `HashMap` of orders are modelled as a list and an association list. -/
structure TradeListingState where
  validated_listings : List String
  orders : List (String × TradeOrderState)
deriving DecidableEq, Repr

/-- `TradeListingState::mark_listing_validated` from `state.rs`. -/
def mark_listing_validated (st : TradeListingState) (listing_addr : String) :
    TradeListingState :=
  { st with validated_listings := setInsert st.validated_listings listing_addr }

/-- `TradeListingState::is_listing_validated` from `state.rs`. -/
def is_listing_validated (st : TradeListingState) (listing_addr : String) : Bool :=
  st.validated_listings.contains listing_addr

/-- Lookup in the association list modelling the `HashMap` of orders. -/
def ordersGet (l : List (String × TradeOrderState)) (k : String) :
    Option TradeOrderState :=
  match l with
  | [] => none
  | p :: t => if p.1 = k then some p.2 else ordersGet t k

/-- In-place value replacement at a key in the association list modelling
the `HashMap` of orders. -/
def ordersPut (l : List (String × TradeOrderState)) (k : String)
    (o : TradeOrderState) : List (String × TradeOrderState) :=
  l.map (fun p => if p.1 = k then (p.1, o) else p)

/-- `TradeListingState::order_exists` from `state.rs`
(`HashMap::contains_key`). -/
def order_exists (st : TradeListingState) (order_id : String) : Bool :=
  (ordersGet st.orders order_id).isSome

/-- Read counterpart of `TradeListingState::get_order_mut` from `state.rs`:
looks the order up in the map. -/
def get_order (st : TradeListingState) (order_id : String) :
    Option TradeOrderState :=
  ordersGet st.orders order_id

/-- Write counterpart of `TradeListingState::get_order_mut`: committing the
in-place mutation of the looked-up entry back into the map. -/
def put_order (st : TradeListingState) (order_id : String)
    (o : TradeOrderState) : TradeListingState :=
  { st with orders := ordersPut st.orders order_id o }

/-- `TradeListingState::insert_order` from `state.rs` (`HashMap::insert`
keyed by `order.order_id`: replaces an existing entry, else appends). -/
def insert_order (st : TradeListingState) (o : TradeOrderState) :
    TradeListingState :=
  if order_exists st o.order_id then put_order st o.order_id o
  else { st with orders := st.orders ++ [(o.order_id, o)] }

/-- `TradeListingState::mark_event_seen` from `state.rs`. -/
def mark_event_seen (st : TradeListingState) (order_id event_id : String) :
    TradeListingState × Bool :=
  match get_order st order_id with
  | some o =>
      (put_order st order_id
        { o with seen_event_ids := setInsert o.seen_event_ids event_id },
       !(o.seen_event_ids.contains event_id))
  | none => (st, false)

/-- `TradeListingState::is_event_seen` from `state.rs`. -/
def is_event_seen (st : TradeListingState) (order_id event_id : String) : Bool :=
  match get_order st order_id with
  | some o => o.seen_event_ids.contains event_id
  | none => false

/-- Modelled from the spec (sections 3, 6.2): `TradeListingMessageType` from
the external `radroots_trade` crate, the closed enum of message types. -/
inductive TradeListingMessageType
  | ListingValidateRequest
  | ListingValidateResult
  | OrderRequest
  | OrderResponse
  | OrderRevision
  | OrderRevisionAccept
  | OrderRevisionDecline
  | Question
  | Answer
  | DiscountRequest
  | DiscountOffer
  | DiscountAccept
  | DiscountDecline
  | Cancel
  | FulfillmentUpdate
  | Receipt
deriving DecidableEq, Repr, Fintype

/-- Modelled from the spec (section 6.2): `TradeListingMessageType::kind`.
The concrete kind numbers live in the external protocol-constants crate;
the spec fixes only that each message type maps to a distinct custom event
kind, so distinct placeholder values are used here. -/
def TradeListingMessageType.kind : TradeListingMessageType → Nat
  | .ListingValidateRequest => 5801
  | .ListingValidateResult => 5802
  | .OrderRequest => 5803
  | .OrderResponse => 5804
  | .OrderRevision => 5805
  | .OrderRevisionAccept => 5806
  | .OrderRevisionDecline => 5807
  | .Question => 5808
  | .Answer => 5809
  | .DiscountRequest => 5810
  | .DiscountOffer => 5811
  | .DiscountAccept => 5812
  | .DiscountDecline => 5813
  | .Cancel => 5814
  | .FulfillmentUpdate => 5815
  | .Receipt => 5816

/-- Modelled from the spec (section 3): `requires_order_id` is true for
every message type except the two listing-validate ones. -/
def TradeListingMessageType.requires_order_id : TradeListingMessageType → Bool
  | .ListingValidateRequest => false
  | .ListingValidateResult => false
  | _ => true

/-- Modelled from the spec (section 6.2): `is_trade_listing_dvm_kind` from
the external `radroots_trade` dvm_kinds module — membership in the fixed set
of trade-listing custom kinds. -/
def is_trade_listing_dvm_kind (k : Nat) : Bool :=
  [5801, 5802, 5803, 5804, 5805, 5806, 5807, 5808,
   5809, 5810, 5811, 5812, 5813, 5814, 5815, 5816].contains k

/-- Event kind as carried by `RadrootsNostrKind`: a custom u16 kind or
anything else. -/
inductive NostrKind
  | Custom (v : Nat)
  | Other
deriving DecidableEq, Repr

/-- The fields of `RadrootsNostrEvent` the dispatcher reads (id, author
pubkey, created_at, kind); content/tags/signature are handled outside the
embedded code paths. -/
structure NostrEvent where
  id : String
  pubkey : String
  created_at : Nat
  kind : NostrKind
deriving DecidableEq, Repr

/-- Modelled from the spec (section 3): `TradeListingAddress` from the
external `radroots_trade` crate — `kind : u16`, seller pubkey, listing id;
canonical form joins the three with a colon. -/
structure TradeListingAddress where
  kind : Nat
  seller_pubkey : String
  listing_id : String
deriving DecidableEq, Repr

/-- Canonical string form of a listing address (`TradeListingAddress::as_str`
renders the stored canonical form, per section 3 of the spec). -/
def TradeListingAddress.as_str (a : TradeListingAddress) : String :=
  toString a.kind ++ ":" ++ a.seller_pubkey ++ ":" ++ a.listing_id

/-- Split a character list on every occurrence of a separator. -/
def splitOnChar (c : Char) : List Char → List (List Char)
  | [] => [[]]
  | x :: xs =>
    match splitOnChar c xs with
    | [] => if x = c then [[], [x]] else [[x]]
    | y :: ys => if x = c then [] :: y :: ys else (x :: y) :: ys

/-- Accumulate the value of a decimal digit string. -/
def digitsVal (cs : List Char) (acc : Nat) : Option Nat :=
  match cs with
  | [] => some acc
  | c :: rest =>
      if c.isDigit then digitsVal rest (acc * 10 + (c.toNat - 48)) else none

/-- Parse a non-empty decimal digit string. -/
def decimalNat (cs : List Char) : Option Nat :=
  match cs with
  | [] => none
  | _ => digitsVal cs 0

/-- Modelled from the spec (section 4.1): `TradeListingAddress::parse` from
the external crate splits on the first two colons and requires a decimal u16
kind and at least three segments (the tail segments beyond the second colon
form the listing id). -/
def TradeListingAddress.parse (s : String) : Option TradeListingAddress :=
  match splitOnChar (Char.ofNat 58) s.toList with
  | k :: pk :: rest =>
      if rest.isEmpty then none
      else
        match decimalNat k with
        | some kv =>
            if kv < 65536 then
              some { kind := kv, seller_pubkey := String.mk pk,
                     listing_id := String.mk (List.intercalate [Char.ofNat 58] rest) }
            else none
        | none => none
  | _ => none

/-- Modelled from the spec (section 4.4, S1): the fields of the external
`TradeOrder` payload that `handle_order_request` reads. -/
structure TradeOrder where
  order_id : String
  listing_addr : String
  buyer_pubkey : String
  seller_pubkey : String
deriving DecidableEq, Repr

/-- Modelled from the spec (section 4.4): the `accepted` flag of the
external `TradeOrderResponse` payload. -/
structure TradeOrderResponse where
  accepted : Bool
deriving DecidableEq, Repr

/-- Modelled from the spec (section 4.4): the `order_id` field of the
external `TradeOrderRevision` payload. -/
structure TradeOrderRevision where
  order_id : String
deriving DecidableEq, Repr

/-- Modelled from the spec (section 4.4): the `accepted` flag of the
external `TradeOrderRevisionResponse` payload. -/
structure TradeOrderRevisionResponse where
  accepted : Bool
deriving DecidableEq, Repr

/-- Modelled from the spec (section 4.4): the optional `order_id` of the
external `TradeQuestion` payload. -/
structure TradeQuestion where
  order_id : Option String
deriving DecidableEq, Repr

/-- Modelled from the spec (section 4.4): the optional `order_id` of the
external `TradeAnswer` payload. -/
structure TradeAnswer where
  order_id : Option String
deriving DecidableEq, Repr

/-- Modelled from the spec (section 4.4): the `order_id` of the external
`TradeDiscountRequest` payload. -/
structure TradeDiscountRequest where
  order_id : String
deriving DecidableEq, Repr

/-- Modelled from the spec (section 4.4): the `order_id` of the external
`TradeDiscountOffer` payload. -/
structure TradeDiscountOffer where
  order_id : String
deriving DecidableEq, Repr

/-- Modelled from the spec (section 4.4): the external
`TradeDiscountDecision` payload, an Accept-or-Decline variant. -/
inductive TradeDiscountDecision
  | Accept
  | Decline
deriving DecidableEq, Repr

/-- Modelled from the spec (section 4.4): the external `TradeListingCancel`
payload; the handler reads none of its fields. -/
structure TradeListingCancel where
  note : Option String
deriving DecidableEq, Repr

/-- Modelled from the spec (section 4.4): the external
`TradeFulfillmentUpdate` payload; the handler reads none of its fields. -/
structure TradeFulfillmentUpdate where
  note : Option String
deriving DecidableEq, Repr

/-- Modelled from the spec (section 4.4): the external `TradeReceipt`
payload; the handler reads none of its fields. -/
structure TradeReceipt where
  note : Option String
deriving DecidableEq, Repr

/-- Modelled from the spec (sections 4.4, 6.4): the external
`TradeListingValidationError` — the two fetch-related variants the handler
constructs plus validator-defined structural variants. -/
inductive TradeListingValidationError
  | ListingEventNotFound (listing_addr : String)
  | ListingEventFetchFailed (listing_addr : String)
  | Structural (msg : String)
deriving DecidableEq, Repr

/-- Modelled from the spec (section 4.4): the external
`TradeListingValidateRequest` payload with its optional `listing_event`
pointer (an event id). -/
structure TradeListingValidateRequest where
  listing_event : Option String
deriving DecidableEq, Repr

/-- `TradeListingValidateResult` payload as constructed by
`send_validate_result` in `dvm.rs`. -/
structure TradeListingValidateResult where
  valid : Bool
  errors : List TradeListingValidationError
deriving DecidableEq, Repr

/-- `TradeListingDvmError` from `handlers/dvm.rs`; the wrapped external
error payloads (`InvalidEnvelope`, `Nostr`, `Serde`) are carried as their
rendered strings. -/
inductive TradeListingDvmError
  | UnsupportedKind
  | MissingRecipient
  | MissingTag (t : String)
  | TagMismatch (t : String)
  | InvalidEnvelope (msg : String)
  | InvalidPayload (msg : String)
  | InvalidListingAddr
  | InvalidOrder
  | State (e : TradeListingStateError)
  | Nostr (msg : String)
  | Serde (msg : String)
  | Unauthorized
  | ListingNotValidated
deriving DecidableEq, Repr

/-- Display rendering of `TradeListingDvmError` per the thiserror
attributes in `handlers/dvm.rs`. -/
def dvmErrorMessage : TradeListingDvmError → String
  | .UnsupportedKind => "event kind not supported"
  | .MissingRecipient => "missing recipient tag"
  | .MissingTag t => "missing required tag: " ++ t
  | .TagMismatch t => "tag mismatch: " ++ t
  | .InvalidEnvelope m => "invalid envelope: " ++ m
  | .InvalidPayload m => "invalid envelope payload: " ++ m
  | .InvalidListingAddr => "invalid listing address"
  | .InvalidOrder => "invalid order request payload"
  | .State e => "state error: " ++ stateErrorMessage e
  | .Nostr m => "nostr error: " ++ m
  | .Serde m => "serde error: " ++ m
  | .Unauthorized => "unauthorized sender"
  | .ListingNotValidated => "listing not validated"

/-- The typed payload an outbound envelope carries (`send_envelope` is
generic over the serializable payload; this sum closes it over the payload
types the handlers actually send). -/
inductive TLPayload
  | order (p : TradeOrder)
  | orderResponse (p : TradeOrderResponse)
  | orderRevision (p : TradeOrderRevision)
  | orderRevisionResponse (p : TradeOrderRevisionResponse)
  | question (p : TradeQuestion)
  | answer (p : TradeAnswer)
  | discountRequest (p : TradeDiscountRequest)
  | discountOffer (p : TradeDiscountOffer)
  | discountDecision (p : TradeDiscountDecision)
  | cancel (p : TradeListingCancel)
  | fulfillmentUpdate (p : TradeFulfillmentUpdate)
  | receipt (p : TradeReceipt)
  | validateResult (p : TradeListingValidateResult)
deriving DecidableEq, Repr

/-- An outbound event as built by `send_envelope` in `dvm.rs`: the envelope
fields (message_type, listing_addr, order_id, payload), the event kind and
the flat tag list passed to the event builder, plus the recipient. -/
structure OutboundEvent where
  recipient : String
  message_type : TradeListingMessageType
  listing_addr : String
  order_id : Option String
  payload : TLPayload
  kind : Nat
  tags : List (List String)
deriving DecidableEq, Repr

/-- `send_envelope` from `handlers/dvm.rs` lines 892-916: wraps the payload
in a `TradeListingEnvelope`, builds the tag list `p`, `a`, and (when the
order id is present) `d`, and builds the event with kind
`message_type.kind()`. -/
def send_envelope (recipient : String) (mt : TradeListingMessageType)
    (listing_addr : String) (order_id : Option String) (payload : TLPayload) :
    OutboundEvent :=
  { recipient := recipient
    message_type := mt
    listing_addr := listing_addr
    order_id := order_id
    payload := payload
    kind := mt.kind
    tags := [["p", recipient], ["a", listing_addr]] ++
      (match order_id with
       | some oid => [["d", oid]]
       | none => []) }

/-- Result type of an embedded handler: the typed error, or the state after
the critical section together with the outbound events sent after the lock
is released. -/
abbrev HandlerOut :=
  Except TradeListingDvmError (TradeListingState × List OutboundEvent)

/-- `handle_order_request` from `handlers/dvm.rs` lines 362-412. -/
def handle_order_request (event : NostrEvent) (payload : TradeOrder)
    (listing_addr : TradeListingAddress) (order_id : Option String)
    (st : TradeListingState) : HandlerOut :=
  match order_id with
  | none => Except.error (TradeListingDvmError.MissingTag "d")
  | some oid =>
    if payload.order_id ≠ oid ∨ payload.listing_addr ≠ listing_addr.as_str then
      Except.error TradeListingDvmError.InvalidOrder
    else if ¬ is_listing_validated st payload.listing_addr then
      Except.error TradeListingDvmError.ListingNotValidated
    else if order_exists st oid then
      Except.ok (st, [])
    else if payload.buyer_pubkey ≠ event.pubkey ∨
        payload.seller_pubkey ≠ listing_addr.seller_pubkey then
      Except.error TradeListingDvmError.Unauthorized
    else
      let st2 := insert_order st
        { order_id := oid
          listing_addr := payload.listing_addr
          buyer_pubkey := payload.buyer_pubkey
          seller_pubkey := payload.seller_pubkey
          status := TradeOrderStatus.Requested
          seen_event_ids := [event.id] }
      Except.ok (st2,
        [send_envelope payload.seller_pubkey TradeListingMessageType.OrderRequest
          payload.listing_addr (some oid) (TLPayload.order payload)])

/-- `handle_order_response` from `handlers/dvm.rs` lines 414-457. -/
def handle_order_response (event : NostrEvent) (payload : TradeOrderResponse)
    (order_id : Option String) (st : TradeListingState) : HandlerOut :=
  match order_id with
  | none => Except.error (TradeListingDvmError.MissingTag "d")
  | some oid =>
    if is_event_seen st oid event.id then Except.ok (st, [])
    else match get_order st oid with
    | none => Except.error (TradeListingDvmError.State TradeListingStateError.MissingOrder)
    | some order =>
      if order.seller_pubkey ≠ event.pubkey then
        Except.error TradeListingDvmError.Unauthorized
      else
        let next_status :=
          if payload.accepted then TradeOrderStatus.Accepted
          else TradeOrderStatus.Declined
        match ensure_transition order.status next_status with
        | Except.error e => Except.error (TradeListingDvmError.State e)
        | Except.ok _ =>
          let st2 := put_order st oid
            { order with status := next_status
                         seen_event_ids := setInsert order.seen_event_ids event.id }
          Except.ok (st2,
            [send_envelope order.buyer_pubkey TradeListingMessageType.OrderResponse
              order.listing_addr (some oid) (TLPayload.orderResponse payload)])

/-- `handle_order_revision` from `handlers/dvm.rs` lines 459-500. -/
def handle_order_revision (event : NostrEvent) (payload : TradeOrderRevision)
    (listing_addr : TradeListingAddress) (order_id : Option String)
    (st : TradeListingState) : HandlerOut :=
  match order_id with
  | none => Except.error (TradeListingDvmError.MissingTag "d")
  | some oid =>
    if payload.order_id ≠ oid then Except.error TradeListingDvmError.InvalidOrder
    else if is_event_seen st oid event.id then Except.ok (st, [])
    else match get_order st oid with
    | none => Except.error (TradeListingDvmError.State TradeListingStateError.MissingOrder)
    | some order =>
      if order.seller_pubkey ≠ event.pubkey ∨
          listing_addr.seller_pubkey ≠ order.seller_pubkey then
        Except.error TradeListingDvmError.Unauthorized
      else
        match ensure_transition order.status TradeOrderStatus.Revised with
        | Except.error e => Except.error (TradeListingDvmError.State e)
        | Except.ok _ =>
          let st2 := put_order st oid
            { order with status := TradeOrderStatus.Revised
                         seen_event_ids := setInsert order.seen_event_ids event.id }
          Except.ok (st2,
            [send_envelope order.buyer_pubkey TradeListingMessageType.OrderRevision
              order.listing_addr (some oid) (TLPayload.orderRevision payload)])

/-- `handle_order_revision_response` from `handlers/dvm.rs` lines 502-551. -/
def handle_order_revision_response (event : NostrEvent)
    (message_type : TradeListingMessageType) (payload : TradeOrderRevisionResponse)
    (order_id : Option String) (st : TradeListingState) : HandlerOut :=
  match order_id with
  | none => Except.error (TradeListingDvmError.MissingTag "d")
  | some oid =>
    if is_event_seen st oid event.id then Except.ok (st, [])
    else match get_order st oid with
    | none => Except.error (TradeListingDvmError.State TradeListingStateError.MissingOrder)
    | some order =>
      if order.buyer_pubkey ≠ event.pubkey then
        Except.error TradeListingDvmError.Unauthorized
      else if message_type = TradeListingMessageType.OrderRevisionAccept ∧
          ¬ payload.accepted then
        Except.error TradeListingDvmError.InvalidOrder
      else if message_type = TradeListingMessageType.OrderRevisionDecline ∧
          payload.accepted then
        Except.error TradeListingDvmError.InvalidOrder
      else
        let next_status :=
          if message_type = TradeListingMessageType.OrderRevisionAccept then
            TradeOrderStatus.Accepted
          else TradeOrderStatus.Declined
        match ensure_transition order.status next_status with
        | Except.error e => Except.error (TradeListingDvmError.State e)
        | Except.ok _ =>
          let st2 := put_order st oid
            { order with status := next_status
                         seen_event_ids := setInsert order.seen_event_ids event.id }
          Except.ok (st2,
            [send_envelope order.seller_pubkey message_type
              order.listing_addr (some oid) (TLPayload.orderRevisionResponse payload)])

/-- `handle_question` from `handlers/dvm.rs` lines 553-594. -/
def handle_question (event : NostrEvent) (payload : TradeQuestion)
    (order_id : Option String) (st : TradeListingState) : HandlerOut :=
  match order_id with
  | none => Except.error (TradeListingDvmError.MissingTag "d")
  | some oid =>
    if payload.order_id.any (fun pid => pid != oid) then
      Except.error TradeListingDvmError.InvalidOrder
    else if is_event_seen st oid event.id then Except.ok (st, [])
    else match get_order st oid with
    | none => Except.error (TradeListingDvmError.State TradeListingStateError.MissingOrder)
    | some order =>
      if order.buyer_pubkey ≠ event.pubkey then
        Except.error TradeListingDvmError.Unauthorized
      else
        match ensure_transition order.status TradeOrderStatus.Questioned with
        | Except.error e => Except.error (TradeListingDvmError.State e)
        | Except.ok _ =>
          let st2 := put_order st oid
            { order with status := TradeOrderStatus.Questioned
                         seen_event_ids := setInsert order.seen_event_ids event.id }
          Except.ok (st2,
            [send_envelope order.seller_pubkey TradeListingMessageType.Question
              order.listing_addr (some oid) (TLPayload.question payload)])

/-- `handle_answer` from `handlers/dvm.rs` lines 596-639. -/
def handle_answer (event : NostrEvent) (payload : TradeAnswer)
    (listing_addr : TradeListingAddress) (order_id : Option String)
    (st : TradeListingState) : HandlerOut :=
  match order_id with
  | none => Except.error (TradeListingDvmError.MissingTag "d")
  | some oid =>
    if payload.order_id.any (fun pid => pid != oid) then
      Except.error TradeListingDvmError.InvalidOrder
    else if is_event_seen st oid event.id then Except.ok (st, [])
    else match get_order st oid with
    | none => Except.error (TradeListingDvmError.State TradeListingStateError.MissingOrder)
    | some order =>
      if order.seller_pubkey ≠ event.pubkey ∨
          listing_addr.seller_pubkey ≠ order.seller_pubkey then
        Except.error TradeListingDvmError.Unauthorized
      else
        match ensure_transition order.status TradeOrderStatus.Requested with
        | Except.error e => Except.error (TradeListingDvmError.State e)
        | Except.ok _ =>
          let st2 := put_order st oid
            { order with status := TradeOrderStatus.Requested
                         seen_event_ids := setInsert order.seen_event_ids event.id }
          Except.ok (st2,
            [send_envelope order.buyer_pubkey TradeListingMessageType.Answer
              order.listing_addr (some oid) (TLPayload.answer payload)])

/-- `handle_discount_request` from `handlers/dvm.rs` lines 641-678; note it
commits the seen event id but performs no status transition. -/
def handle_discount_request (event : NostrEvent) (payload : TradeDiscountRequest)
    (order_id : Option String) (st : TradeListingState) : HandlerOut :=
  match order_id with
  | none => Except.error (TradeListingDvmError.MissingTag "d")
  | some oid =>
    if payload.order_id ≠ oid then Except.error TradeListingDvmError.InvalidOrder
    else if is_event_seen st oid event.id then Except.ok (st, [])
    else match get_order st oid with
    | none => Except.error (TradeListingDvmError.State TradeListingStateError.MissingOrder)
    | some order =>
      if order.buyer_pubkey ≠ event.pubkey then
        Except.error TradeListingDvmError.Unauthorized
      else
        let st2 := put_order st oid
          { order with seen_event_ids := setInsert order.seen_event_ids event.id }
        Except.ok (st2,
          [send_envelope order.seller_pubkey TradeListingMessageType.DiscountRequest
            order.listing_addr (some oid) (TLPayload.discountRequest payload)])

/-- `handle_discount_offer` from `handlers/dvm.rs` lines 680-719. -/
def handle_discount_offer (event : NostrEvent) (payload : TradeDiscountOffer)
    (order_id : Option String) (st : TradeListingState) : HandlerOut :=
  match order_id with
  | none => Except.error (TradeListingDvmError.MissingTag "d")
  | some oid =>
    if payload.order_id ≠ oid then Except.error TradeListingDvmError.InvalidOrder
    else if is_event_seen st oid event.id then Except.ok (st, [])
    else match get_order st oid with
    | none => Except.error (TradeListingDvmError.State TradeListingStateError.MissingOrder)
    | some order =>
      if order.seller_pubkey ≠ event.pubkey then
        Except.error TradeListingDvmError.Unauthorized
      else
        match ensure_transition order.status TradeOrderStatus.Revised with
        | Except.error e => Except.error (TradeListingDvmError.State e)
        | Except.ok _ =>
          let st2 := put_order st oid
            { order with status := TradeOrderStatus.Revised
                         seen_event_ids := setInsert order.seen_event_ids event.id }
          Except.ok (st2,
            [send_envelope order.buyer_pubkey TradeListingMessageType.DiscountOffer
              order.listing_addr (some oid) (TLPayload.discountOffer payload)])

/-- `handle_discount_decision` from `handlers/dvm.rs` lines 721-771. -/
def handle_discount_decision (event : NostrEvent)
    (message_type : TradeListingMessageType) (payload : TradeDiscountDecision)
    (order_id : Option String) (st : TradeListingState) : HandlerOut :=
  match order_id with
  | none => Except.error (TradeListingDvmError.MissingTag "d")
  | some oid =>
    if is_event_seen st oid event.id then Except.ok (st, [])
    else match get_order st oid with
    | none => Except.error (TradeListingDvmError.State TradeListingStateError.MissingOrder)
    | some order =>
      if order.buyer_pubkey ≠ event.pubkey then
        Except.error TradeListingDvmError.Unauthorized
      else if message_type = TradeListingMessageType.DiscountAccept ∧
          payload ≠ TradeDiscountDecision.Accept then
        Except.error TradeListingDvmError.InvalidOrder
      else if message_type = TradeListingMessageType.DiscountDecline ∧
          payload ≠ TradeDiscountDecision.Decline then
        Except.error TradeListingDvmError.InvalidOrder
      else
        let next_status :=
          match message_type with
          | TradeListingMessageType.DiscountAccept => TradeOrderStatus.Accepted
          | TradeListingMessageType.DiscountDecline => TradeOrderStatus.Requested
          | _ => order.status
        match ensure_transition order.status next_status with
        | Except.error e => Except.error (TradeListingDvmError.State e)
        | Except.ok _ =>
          let st2 := put_order st oid
            { order with status := next_status
                         seen_event_ids := setInsert order.seen_event_ids event.id }
          Except.ok (st2,
            [send_envelope order.seller_pubkey message_type
              order.listing_addr (some oid) (TLPayload.discountDecision payload)])

/-- `handle_cancel` from `handlers/dvm.rs` lines 773-814. -/
def handle_cancel (event : NostrEvent) (payload : TradeListingCancel)
    (order_id : Option String) (st : TradeListingState) : HandlerOut :=
  match order_id with
  | none => Except.error (TradeListingDvmError.MissingTag "d")
  | some oid =>
    if is_event_seen st oid event.id then Except.ok (st, [])
    else match get_order st oid with
    | none => Except.error (TradeListingDvmError.State TradeListingStateError.MissingOrder)
    | some order =>
      if event.pubkey ≠ order.buyer_pubkey ∧ event.pubkey ≠ order.seller_pubkey then
        Except.error TradeListingDvmError.Unauthorized
      else
        match ensure_transition order.status TradeOrderStatus.Cancelled with
        | Except.error e => Except.error (TradeListingDvmError.State e)
        | Except.ok _ =>
          let recipient :=
            if event.pubkey = order.buyer_pubkey then order.seller_pubkey
            else order.buyer_pubkey
          let st2 := put_order st oid
            { order with status := TradeOrderStatus.Cancelled
                         seen_event_ids := setInsert order.seen_event_ids event.id }
          Except.ok (st2,
            [send_envelope recipient TradeListingMessageType.Cancel
              order.listing_addr (some oid) (TLPayload.cancel payload)])

/-- `handle_fulfillment_update` from `handlers/dvm.rs` lines 816-852. -/
def handle_fulfillment_update (event : NostrEvent) (payload : TradeFulfillmentUpdate)
    (order_id : Option String) (st : TradeListingState) : HandlerOut :=
  match order_id with
  | none => Except.error (TradeListingDvmError.MissingTag "d")
  | some oid =>
    if is_event_seen st oid event.id then Except.ok (st, [])
    else match get_order st oid with
    | none => Except.error (TradeListingDvmError.State TradeListingStateError.MissingOrder)
    | some order =>
      if order.seller_pubkey ≠ event.pubkey then
        Except.error TradeListingDvmError.Unauthorized
      else
        match ensure_transition order.status TradeOrderStatus.Fulfilled with
        | Except.error e => Except.error (TradeListingDvmError.State e)
        | Except.ok _ =>
          let st2 := put_order st oid
            { order with status := TradeOrderStatus.Fulfilled
                         seen_event_ids := setInsert order.seen_event_ids event.id }
          Except.ok (st2,
            [send_envelope order.buyer_pubkey TradeListingMessageType.FulfillmentUpdate
              order.listing_addr (some oid) (TLPayload.fulfillmentUpdate payload)])

/-- `handle_receipt` from `handlers/dvm.rs` lines 854-890. -/
def handle_receipt (event : NostrEvent) (payload : TradeReceipt)
    (order_id : Option String) (st : TradeListingState) : HandlerOut :=
  match order_id with
  | none => Except.error (TradeListingDvmError.MissingTag "d")
  | some oid =>
    if is_event_seen st oid event.id then Except.ok (st, [])
    else match get_order st oid with
    | none => Except.error (TradeListingDvmError.State TradeListingStateError.MissingOrder)
    | some order =>
      if order.buyer_pubkey ≠ event.pubkey then
        Except.error TradeListingDvmError.Unauthorized
      else
        match ensure_transition order.status TradeOrderStatus.Completed with
        | Except.error e => Except.error (TradeListingDvmError.State e)
        | Except.ok _ =>
          let st2 := put_order st oid
            { order with status := TradeOrderStatus.Completed
                         seen_event_ids := setInsert order.seen_event_ids event.id }
          Except.ok (st2,
            [send_envelope order.seller_pubkey TradeListingMessageType.Receipt
              order.listing_addr (some oid) (TLPayload.receipt payload)])

/-- A transport filter as built by `fetch_listing_by_addr` in `dvm.rs`:
kind, author, and replaceable-event identifier. -/
structure ListingFilter where
  kind : Nat
  author : String
  identifier : String
deriving DecidableEq, Repr

/-- The filter `fetch_listing_by_addr` installs for a parsed listing
address. -/
def listing_filter (addr : TradeListingAddress) : ListingFilter :=
  { kind := addr.kind, author := addr.seller_pubkey, identifier := addr.listing_id }

/-- One iteration of the selection loop of `fetch_listing_by_addr`
(`dvm.rs` lines 932-939): skip an event of the wrong kind, keep the event
with the strictly greater `created_at`. -/
def latest_step (kind : Nat) (latest : Option NostrEvent) (ev : NostrEvent) :
    Option NostrEvent :=
  if ev.kind ≠ NostrKind.Custom kind then latest
  else
    match latest with
    | some cur => if ev.created_at ≤ cur.created_at then latest else some ev
    | none => some ev

/-- The selection loop of `fetch_listing_by_addr` (`dvm.rs` lines 931-940),
starting from no candidate. -/
def latest_listing_fold (kind : Nat) (events : List NostrEvent) :
    Option NostrEvent :=
  events.foldl (latest_step kind) none

/-- Outcome of the transport's `fetch_event_by_id`: the event, a NotFound
error, or another transport error (the two error arms the handler
distinguishes). -/
inductive FetchByIdResult
  | found (ev : NostrEvent)
  | notFound
  | fetchErr
deriving DecidableEq, Repr

/-- The outcomes of the external transport calls a listing validation may
make, passed in as oracles: fetch-by-id, filtered fetch, and the external
`validate_listing_event` predicate of section 6.4. -/
structure Oracles where
  fetchById : String → FetchByIdResult
  fetchEvents : ListingFilter → Except Unit (List NostrEvent)
  validator : NostrEvent → Except TradeListingValidationError Unit

/-- `fetch_listing_by_addr` from `handlers/dvm.rs` lines 918-942: parse the
address, fetch with the `(kind, author, identifier)` filter, and select the
latest matching event.  Pubkey syntax checking of the parsed seller key is
elided (pubkeys are plain strings in this model). -/
def fetch_listing_by_addr (fetchEvents : ListingFilter → Except Unit (List NostrEvent))
    (listing_addr : String) : Except TradeListingDvmError (Option NostrEvent) :=
  match TradeListingAddress.parse listing_addr with
  | none => Except.error TradeListingDvmError.InvalidListingAddr
  | some addr =>
    match fetchEvents (listing_filter addr) with
    | Except.error _ => Except.error (TradeListingDvmError.Nostr "fetch failed")
    | Except.ok events => Except.ok (latest_listing_fold addr.kind events)

/-- `send_validate_result` from `handlers/dvm.rs` lines 341-360: reply to
the sender with a `ListingValidateResult` whose `valid` flag is the
emptiness of the error list. -/
def send_validate_result (event : NostrEvent) (listing_addr : String)
    (errors : List TradeListingValidationError) : OutboundEvent :=
  send_envelope event.pubkey TradeListingMessageType.ListingValidateResult
    listing_addr none
    (TLPayload.validateResult { valid := errors.isEmpty, errors := errors })

/-- `handle_listing_validate_request` from `handlers/dvm.rs` lines 284-339.
The early-return arms of the Rust code are folded into an intermediate
`resolved` value: an error list to report, or the optionally resolved
listing event. -/
def handle_listing_validate_request (ors : Oracles) (event : NostrEvent)
    (payload : TradeListingValidateRequest) (listing_addr : String)
    (st : TradeListingState) : HandlerOut :=
  let resolved : Except (List TradeListingValidationError) (Option NostrEvent) :=
    match payload.listing_event with
    | some ptr =>
        match ors.fetchById ptr with
        | FetchByIdResult.found evt => Except.ok (some evt)
        | FetchByIdResult.notFound =>
            Except.error [TradeListingValidationError.ListingEventNotFound listing_addr]
        | FetchByIdResult.fetchErr =>
            Except.error [TradeListingValidationError.ListingEventFetchFailed listing_addr]
    | none =>
        match fetch_listing_by_addr ors.fetchEvents listing_addr with
        | Except.error _ =>
            Except.error [TradeListingValidationError.ListingEventFetchFailed listing_addr]
        | Except.ok latest => Except.ok latest
  match resolved with
  | Except.error errs =>
      Except.ok (st, [send_validate_result event listing_addr errs])
  | Except.ok none =>
      Except.ok (st,
        [send_validate_result event listing_addr
          [TradeListingValidationError.ListingEventNotFound listing_addr]])
  | Except.ok (some evt) =>
      match ors.validator evt with
      | Except.ok _ =>
          Except.ok (mark_listing_validated st listing_addr,
            [send_validate_result event listing_addr []])
      | Except.error err =>
          Except.ok (st, [send_validate_result event listing_addr [err]])

/-- The typed handler invocations the dispatcher `match` of `handle_event`
(`dvm.rs` lines 120-279) can make, with the payload already deserialized. -/
inductive HandlerInput
  | orderRequest (p : TradeOrder)
  | orderResponse (p : TradeOrderResponse)
  | orderRevision (p : TradeOrderRevision)
  | orderRevisionResponse (mt : TradeListingMessageType) (p : TradeOrderRevisionResponse)
  | question (p : TradeQuestion)
  | answer (p : TradeAnswer)
  | discountRequest (p : TradeDiscountRequest)
  | discountOffer (p : TradeDiscountOffer)
  | discountDecision (mt : TradeListingMessageType) (p : TradeDiscountDecision)
  | cancel (p : TradeListingCancel)
  | fulfillmentUpdate (p : TradeFulfillmentUpdate)
  | receipt (p : TradeReceipt)
  | listingValidate (p : TradeListingValidateRequest)

/-- One dispatcher invocation: the signed event, the inbound envelope's
listing address (raw string and parsed form, both in scope in
`handle_event`), the inbound order id, and the typed handler input. -/
structure DispatchStep where
  input : HandlerInput
  event : NostrEvent
  listing_addr_str : String
  listing_addr : TradeListingAddress
  order_id : Option String

/-- The dispatcher `match` of `handle_event` (`dvm.rs` lines 120-279),
routing a typed payload to its handler. -/
def dispatch (ors : Oracles) (s : DispatchStep) (st : TradeListingState) :
    HandlerOut :=
  match s.input with
  | HandlerInput.orderRequest p =>
      handle_order_request s.event p s.listing_addr s.order_id st
  | HandlerInput.orderResponse p =>
      handle_order_response s.event p s.order_id st
  | HandlerInput.orderRevision p =>
      handle_order_revision s.event p s.listing_addr s.order_id st
  | HandlerInput.orderRevisionResponse mt p =>
      handle_order_revision_response s.event mt p s.order_id st
  | HandlerInput.question p =>
      handle_question s.event p s.order_id st
  | HandlerInput.answer p =>
      handle_answer s.event p s.listing_addr s.order_id st
  | HandlerInput.discountRequest p =>
      handle_discount_request s.event p s.order_id st
  | HandlerInput.discountOffer p =>
      handle_discount_offer s.event p s.order_id st
  | HandlerInput.discountDecision mt p =>
      handle_discount_decision s.event mt p s.order_id st
  | HandlerInput.cancel p =>
      handle_cancel s.event p s.order_id st
  | HandlerInput.fulfillmentUpdate p =>
      handle_fulfillment_update s.event p s.order_id st
  | HandlerInput.receipt p =>
      handle_receipt s.event p s.order_id st
  | HandlerInput.listingValidate p =>
      handle_listing_validate_request ors s.event p s.listing_addr_str st

/-- The state after one dispatcher step; a failed handler leaves the
lock-guarded aggregate as it was. -/
def apply_step (ors : Oracles) (s : DispatchStep) (st : TradeListingState) :
    TradeListingState :=
  match dispatch ors s st with
  | Except.ok (st2, _) => st2
  | Except.error _ => st

/-- A sequence of dispatcher steps applied in order. -/
def run_trace (ors : Oracles) (steps : List DispatchStep)
    (st : TradeListingState) : TradeListingState :=
  match steps with
  | [] => st
  | s :: rest => run_trace ors rest (apply_step ors s st)

/-- Looking an order up after `put_order` sees the written value at the
written key and the old value elsewhere. -/
theorem get_order_put_order (st : TradeListingState) (k : String)
    (o : TradeOrderState) (k2 : String) :
    get_order (put_order st k o) k2 =
      (get_order st k2).map (fun v => if k2 = k then o else v) := by
  unfold get_order put_order ordersPut
  dsimp only
  induction st.orders with
  | nil => rfl
  | cons p t ih =>
    by_cases hp : p.1 = k
    · by_cases hp2 : p.1 = k2
      · simp [ordersGet, hp, hp2, hp2 ▸ hp]
      · have hk : ¬ k = k2 := fun hc => hp2 (hp.trans hc)
        simp [ordersGet, hp, hp2, hk, ih]
    · by_cases hp2 : p.1 = k2
      · have : ¬ k2 = k := fun hc => hp (hp2.trans hc)
        simp [ordersGet, hp, hp2, this]
      · simp [ordersGet, hp, hp2, ih]

/-- `order_exists` agrees with `get_order` being defined. -/
theorem order_exists_eq_isSome (st : TradeListingState) (k : String) :
    order_exists st k = (get_order st k).isSome := rfl

/-- Appending a fresh key to the association list changes only lookups of
that key. -/
theorem ordersGet_append_single (l : List (String × TradeOrderState))
    (k : String) (o : TradeOrderState) (k2 : String)
    (hnone : ordersGet l k = none) :
    ordersGet (l ++ [(k, o)]) k2 = if k2 = k then some o else ordersGet l k2 := by
  induction l with
  | nil =>
    by_cases h : k2 = k
    · simp [ordersGet, h]
    · have : ¬ k = k2 := fun hc => h hc.symm
      simp [ordersGet, h, this]
  | cons p t ih =>
    by_cases hpk : p.1 = k
    · simp [ordersGet, hpk] at hnone
    · have hnone2 : ordersGet t k = none := by
        simpa [ordersGet, hpk] using hnone
      by_cases hp2 : p.1 = k2
      · have : ¬ k2 = k := fun hc => hpk (hp2.trans hc)
        simp [ordersGet, hp2, this]
      · simp [ordersGet, hp2, ih hnone2]

/-- Looking an order up after `insert_order` sees the inserted order at its
id and the old map elsewhere. -/
theorem get_order_insert_order (st : TradeListingState) (o : TradeOrderState)
    (k2 : String) :
    get_order (insert_order st o) k2 =
      if k2 = o.order_id then some o else get_order st k2 := by
  unfold insert_order
  by_cases hex : order_exists st o.order_id
  · rw [if_pos hex, get_order_put_order]
    by_cases hk : k2 = o.order_id
    · have hs : (get_order st o.order_id).isSome := by
        rw [← order_exists_eq_isSome]
        exact hex
      cases hg : get_order st o.order_id with
      | none => rw [hg] at hs; exact absurd hs (by simp)
      | some v => simp [hk, hg]
    · cases hg : get_order st k2 <;> simp [hk, hg]
  · rw [if_neg hex]
    have hnone : ordersGet st.orders o.order_id = none := by
      revert hex
      unfold order_exists
      cases hg : ordersGet st.orders o.order_id <;> simp [hg]
    show ordersGet (st.orders ++ [(o.order_id, o)]) k2 = _
    rw [ordersGet_append_single _ _ _ _ hnone]
    rfl

/-- `put_order` leaves the validated-listings set untouched. -/
theorem validated_put_order (st : TradeListingState) (k : String)
    (o : TradeOrderState) :
    (put_order st k o).validated_listings = st.validated_listings := rfl

/-- `insert_order` leaves the validated-listings set untouched. -/
theorem validated_insert_order (st : TradeListingState) (o : TradeOrderState) :
    (insert_order st o).validated_listings = st.validated_listings := by
  unfold insert_order
  split <;> rfl

/-- `mark_listing_validated` leaves the order map untouched. -/
theorem orders_mark_listing_validated (st : TradeListingState) (a : String) :
    (mark_listing_validated st a).orders = st.orders := rfl

/-- `mark_listing_validated` only grows the validated set. -/
theorem mem_validated_mark (st : TradeListingState) (a x : String)
    (h : st.validated_listings.contains x = true) :
    (mark_listing_validated st a).validated_listings.contains x = true := by
  unfold mark_listing_validated setInsert
  dsimp only
  split
  · exact h
  · have hm : x ∈ st.validated_listings := by simpa using h
    simp [hm]

/-- From a terminal status, the only transition `ensure_transition` admits
is the self-loop. -/
theorem ensure_transition_terminal_fix :
    ∀ f t, isTerminalStatus f = true →
      ensure_transition f t = Except.ok () → t = f := by
  decide

/-- Common success shape of the existing-order handlers: either the replay
short-circuit (state unchanged, nothing sent), or a single commit on the
addressed order through a transition `ensure_transition` admits, followed
by exactly one outbound envelope carrying the order's stored listing
address and the inbound order id. -/
def okShape (ev : NostrEvent) (mt : TradeListingMessageType) (pl : TLPayload)
    (oid : String) (st st2 : TradeListingState)
    (outs : List OutboundEvent) : Prop :=
  (st2 = st ∧ outs = []) ∨
  ∃ order next recipient,
    get_order st oid = some order ∧
    ensure_transition order.status next = Except.ok () ∧
    st2 = put_order st oid
      { order with status := next
                   seen_event_ids := setInsert order.seen_event_ids ev.id } ∧
    outs = [send_envelope recipient mt order.listing_addr (some oid) pl] ∧
    (recipient = order.buyer_pubkey ∨ recipient = order.seller_pubkey)

/-- A successful `handle_order_response` has the common commit shape. -/
theorem handle_order_response_shape (ev : NostrEvent) (p : TradeOrderResponse)
    (oid : String) (st st2 : TradeListingState) (outs : List OutboundEvent)
    (h : handle_order_response ev p (some oid) st = Except.ok (st2, outs)) :
    okShape ev TradeListingMessageType.OrderResponse (TLPayload.orderResponse p)
      oid st st2 outs := by
  simp only [handle_order_response] at h
  split at h
  · injection h with h12
    injection h12 with h1 h2
    exact Or.inl ⟨h1.symm, h2.symm⟩
  · split at h
    · exact Except.noConfusion h
    · rename_i order heq
      split at h
      · exact Except.noConfusion h
      · split at h
        · exact Except.noConfusion h
        · rename_i hens
          injection h with h12
          injection h12 with h1 h2
          exact Or.inr ⟨order, _, order.buyer_pubkey, heq, hens, h1.symm, h2.symm,
            Or.inl rfl⟩

/-- The self-loop is always admitted by `ensure_transition`. -/
theorem ensure_transition_self (f : TradeOrderStatus) :
    ensure_transition f f = Except.ok () := by
  unfold ensure_transition
  rw [if_pos rfl]

/-- A successful `handle_order_revision` has the common commit shape. -/
theorem handle_order_revision_shape (ev : NostrEvent) (p : TradeOrderRevision)
    (la : TradeListingAddress) (oid : String) (st st2 : TradeListingState)
    (outs : List OutboundEvent)
    (h : handle_order_revision ev p la (some oid) st = Except.ok (st2, outs)) :
    okShape ev TradeListingMessageType.OrderRevision (TLPayload.orderRevision p)
      oid st st2 outs := by
  simp only [handle_order_revision] at h
  split at h
  · exact Except.noConfusion h
  · split at h
    · injection h with h12
      injection h12 with h1 h2
      exact Or.inl ⟨h1.symm, h2.symm⟩
    · split at h
      · exact Except.noConfusion h
      · rename_i order heq
        split at h
        · exact Except.noConfusion h
        · split at h
          · exact Except.noConfusion h
          · rename_i hens
            injection h with h12
            injection h12 with h1 h2
            exact Or.inr ⟨order, _, order.buyer_pubkey, heq, hens, h1.symm, h2.symm,
              Or.inl rfl⟩

/-- A successful `handle_order_revision_response` has the common commit
shape. -/
theorem handle_order_revision_response_shape (ev : NostrEvent)
    (mt : TradeListingMessageType) (p : TradeOrderRevisionResponse)
    (oid : String) (st st2 : TradeListingState) (outs : List OutboundEvent)
    (h : handle_order_revision_response ev mt p (some oid) st =
      Except.ok (st2, outs)) :
    okShape ev mt (TLPayload.orderRevisionResponse p) oid st st2 outs := by
  simp only [handle_order_revision_response] at h
  split at h
  · injection h with h12
    injection h12 with h1 h2
    exact Or.inl ⟨h1.symm, h2.symm⟩
  · split at h
    · exact Except.noConfusion h
    · rename_i order heq
      split at h
      · exact Except.noConfusion h
      · split at h
        · exact Except.noConfusion h
        · split at h
          · exact Except.noConfusion h
          · split at h
            · exact Except.noConfusion h
            · rename_i hens
              injection h with h12
              injection h12 with h1 h2
              exact Or.inr ⟨order, _, order.seller_pubkey, heq, hens, h1.symm,
                h2.symm, Or.inr rfl⟩

/-- A successful `handle_question` has the common commit shape. -/
theorem handle_question_shape (ev : NostrEvent) (p : TradeQuestion)
    (oid : String) (st st2 : TradeListingState) (outs : List OutboundEvent)
    (h : handle_question ev p (some oid) st = Except.ok (st2, outs)) :
    okShape ev TradeListingMessageType.Question (TLPayload.question p)
      oid st st2 outs := by
  simp only [handle_question] at h
  split at h
  · exact Except.noConfusion h
  · split at h
    · injection h with h12
      injection h12 with h1 h2
      exact Or.inl ⟨h1.symm, h2.symm⟩
    · split at h
      · exact Except.noConfusion h
      · rename_i order heq
        split at h
        · exact Except.noConfusion h
        · split at h
          · exact Except.noConfusion h
          · rename_i hens
            injection h with h12
            injection h12 with h1 h2
            exact Or.inr ⟨order, _, order.seller_pubkey, heq, hens, h1.symm,
              h2.symm, Or.inr rfl⟩

/-- A successful `handle_answer` has the common commit shape. -/
theorem handle_answer_shape (ev : NostrEvent) (p : TradeAnswer)
    (la : TradeListingAddress) (oid : String) (st st2 : TradeListingState)
    (outs : List OutboundEvent)
    (h : handle_answer ev p la (some oid) st = Except.ok (st2, outs)) :
    okShape ev TradeListingMessageType.Answer (TLPayload.answer p)
      oid st st2 outs := by
  simp only [handle_answer] at h
  split at h
  · exact Except.noConfusion h
  · split at h
    · injection h with h12
      injection h12 with h1 h2
      exact Or.inl ⟨h1.symm, h2.symm⟩
    · split at h
      · exact Except.noConfusion h
      · rename_i order heq
        split at h
        · exact Except.noConfusion h
        · split at h
          · exact Except.noConfusion h
          · rename_i hens
            injection h with h12
            injection h12 with h1 h2
            exact Or.inr ⟨order, _, order.buyer_pubkey, heq, hens, h1.symm,
              h2.symm, Or.inl rfl⟩

/-- A successful `handle_discount_request` has the common commit shape (its
commit keeps the status, a self-loop `ensure_transition` admits). -/
theorem handle_discount_request_shape (ev : NostrEvent)
    (p : TradeDiscountRequest) (oid : String) (st st2 : TradeListingState)
    (outs : List OutboundEvent)
    (h : handle_discount_request ev p (some oid) st = Except.ok (st2, outs)) :
    okShape ev TradeListingMessageType.DiscountRequest
      (TLPayload.discountRequest p) oid st st2 outs := by
  simp only [handle_discount_request] at h
  split at h
  · exact Except.noConfusion h
  · split at h
    · injection h with h12
      injection h12 with h1 h2
      exact Or.inl ⟨h1.symm, h2.symm⟩
    · split at h
      · exact Except.noConfusion h
      · rename_i order heq
        split at h
        · exact Except.noConfusion h
        · injection h with h12
          injection h12 with h1 h2
          exact Or.inr ⟨order, order.status, order.seller_pubkey, heq,
            ensure_transition_self order.status, h1.symm, h2.symm, Or.inr rfl⟩

/-- A successful `handle_discount_offer` has the common commit shape. -/
theorem handle_discount_offer_shape (ev : NostrEvent) (p : TradeDiscountOffer)
    (oid : String) (st st2 : TradeListingState) (outs : List OutboundEvent)
    (h : handle_discount_offer ev p (some oid) st = Except.ok (st2, outs)) :
    okShape ev TradeListingMessageType.DiscountOffer (TLPayload.discountOffer p)
      oid st st2 outs := by
  simp only [handle_discount_offer] at h
  split at h
  · exact Except.noConfusion h
  · split at h
    · injection h with h12
      injection h12 with h1 h2
      exact Or.inl ⟨h1.symm, h2.symm⟩
    · split at h
      · exact Except.noConfusion h
      · rename_i order heq
        split at h
        · exact Except.noConfusion h
        · split at h
          · exact Except.noConfusion h
          · rename_i hens
            injection h with h12
            injection h12 with h1 h2
            exact Or.inr ⟨order, _, order.buyer_pubkey, heq, hens, h1.symm,
              h2.symm, Or.inl rfl⟩

/-- A successful `handle_discount_decision` has the common commit shape. -/
theorem handle_discount_decision_shape (ev : NostrEvent)
    (mt : TradeListingMessageType) (p : TradeDiscountDecision) (oid : String)
    (st st2 : TradeListingState) (outs : List OutboundEvent)
    (h : handle_discount_decision ev mt p (some oid) st = Except.ok (st2, outs)) :
    okShape ev mt (TLPayload.discountDecision p) oid st st2 outs := by
  simp only [handle_discount_decision] at h
  split at h
  · injection h with h12
    injection h12 with h1 h2
    exact Or.inl ⟨h1.symm, h2.symm⟩
  · split at h
    · exact Except.noConfusion h
    · rename_i order heq
      split at h
      · exact Except.noConfusion h
      · split at h
        · exact Except.noConfusion h
        · split at h
          · exact Except.noConfusion h
          · split at h
            · exact Except.noConfusion h
            · rename_i hens
              injection h with h12
              injection h12 with h1 h2
              exact Or.inr ⟨order, _, order.seller_pubkey, heq, hens, h1.symm,
                h2.symm, Or.inr rfl⟩

/-- A successful `handle_cancel` has the common commit shape. -/
theorem handle_cancel_shape (ev : NostrEvent) (p : TradeListingCancel)
    (oid : String) (st st2 : TradeListingState) (outs : List OutboundEvent)
    (h : handle_cancel ev p (some oid) st = Except.ok (st2, outs)) :
    okShape ev TradeListingMessageType.Cancel (TLPayload.cancel p)
      oid st st2 outs := by
  simp only [handle_cancel] at h
  split at h
  · injection h with h12
    injection h12 with h1 h2
    exact Or.inl ⟨h1.symm, h2.symm⟩
  · split at h
    · exact Except.noConfusion h
    · rename_i order heq
      split at h
      · exact Except.noConfusion h
      · split at h
        · exact Except.noConfusion h
        · rename_i hens
          injection h with h12
          injection h12 with h1 h2
          by_cases hb : ev.pubkey = order.buyer_pubkey
          · refine Or.inr ⟨order, _, order.seller_pubkey, heq, hens, h1.symm, ?_,
              Or.inr rfl⟩
            rw [← h2]
            simp [hb]
          · refine Or.inr ⟨order, _, order.buyer_pubkey, heq, hens, h1.symm, ?_,
              Or.inl rfl⟩
            rw [← h2]
            simp [hb]

/-- A successful `handle_fulfillment_update` has the common commit shape. -/
theorem handle_fulfillment_update_shape (ev : NostrEvent)
    (p : TradeFulfillmentUpdate) (oid : String) (st st2 : TradeListingState)
    (outs : List OutboundEvent)
    (h : handle_fulfillment_update ev p (some oid) st = Except.ok (st2, outs)) :
    okShape ev TradeListingMessageType.FulfillmentUpdate
      (TLPayload.fulfillmentUpdate p) oid st st2 outs := by
  simp only [handle_fulfillment_update] at h
  split at h
  · injection h with h12
    injection h12 with h1 h2
    exact Or.inl ⟨h1.symm, h2.symm⟩
  · split at h
    · exact Except.noConfusion h
    · rename_i order heq
      split at h
      · exact Except.noConfusion h
      · split at h
        · exact Except.noConfusion h
        · rename_i hens
          injection h with h12
          injection h12 with h1 h2
          exact Or.inr ⟨order, _, order.buyer_pubkey, heq, hens, h1.symm,
            h2.symm, Or.inl rfl⟩

/-- A successful `handle_receipt` has the common commit shape. -/
theorem handle_receipt_shape (ev : NostrEvent) (p : TradeReceipt)
    (oid : String) (st st2 : TradeListingState) (outs : List OutboundEvent)
    (h : handle_receipt ev p (some oid) st = Except.ok (st2, outs)) :
    okShape ev TradeListingMessageType.Receipt (TLPayload.receipt p)
      oid st st2 outs := by
  simp only [handle_receipt] at h
  split at h
  · injection h with h12
    injection h12 with h1 h2
    exact Or.inl ⟨h1.symm, h2.symm⟩
  · split at h
    · exact Except.noConfusion h
    · rename_i order heq
      split at h
      · exact Except.noConfusion h
      · split at h
        · exact Except.noConfusion h
        · rename_i hens
          injection h with h12
          injection h12 with h1 h2
          exact Or.inr ⟨order, _, order.seller_pubkey, heq, hens, h1.symm,
            h2.symm, Or.inr rfl⟩

/-- A successful `handle_order_request` either replays silently on an
existing order or inserts a fresh order. -/
theorem handle_order_request_state_shape (ev : NostrEvent) (p : TradeOrder)
    (la : TradeListingAddress) (oid : String) (st st2 : TradeListingState)
    (outs : List OutboundEvent)
    (h : handle_order_request ev p la (some oid) st = Except.ok (st2, outs)) :
    (st2 = st ∧ outs = []) ∨
    ∃ o, order_exists st o.order_id = false ∧ st2 = insert_order st o := by
  simp only [handle_order_request] at h
  split at h
  · exact Except.noConfusion h
  · split at h
    · exact Except.noConfusion h
    · split at h
      · injection h with h12
        injection h12 with h1 h2
        exact Or.inl ⟨h1.symm, h2.symm⟩
      · split at h
        · exact Except.noConfusion h
        · rename_i hnv hex hauth
          injection h with h12
          injection h12 with h1 h2
          refine Or.inr ⟨_, ?_, h1.symm⟩
          simpa using hex

/-- A successful `handle_listing_validate_request` leaves the state alone or
marks the listing validated; either way it sends exactly one
`ListingValidateResult` to the event author. -/
theorem handle_listing_validate_request_state_shape (ors : Oracles)
    (ev : NostrEvent) (p : TradeListingValidateRequest) (la : String)
    (st st2 : TradeListingState) (outs : List OutboundEvent)
    (h : handle_listing_validate_request ors ev p la st = Except.ok (st2, outs)) :
    (st2 = st ∨ st2 = mark_listing_validated st la) ∧
    ∃ errs, outs = [send_validate_result ev la errs] := by
  simp only [handle_listing_validate_request] at h
  split at h
  · injection h with h12
    injection h12 with h1 h2
    exact ⟨Or.inl h1.symm, _, h2.symm⟩
  · injection h with h12
    injection h12 with h1 h2
    exact ⟨Or.inl h1.symm, _, h2.symm⟩
  · split at h
    · injection h with h12
      injection h12 with h1 h2
      exact ⟨Or.inr h1.symm, _, h2.symm⟩
    · injection h with h12
      injection h12 with h1 h2
      exact ⟨Or.inl h1.symm, _, h2.symm⟩

/-- A commit of the common shape preserves any terminal status already
recorded for any order. -/
theorem okShape_preserves_terminal {ev : NostrEvent}
    {mt : TradeListingMessageType} {pl : TLPayload} {oid2 : String}
    {st st2 : TradeListingState} {outs : List OutboundEvent}
    (oid : String) (os : TradeOrderState)
    (hs : okShape ev mt pl oid2 st st2 outs)
    (hg : get_order st oid = some os)
    (ht : isTerminalStatus os.status = true) :
    ∃ os2, get_order st2 oid = some os2 ∧ os2.status = os.status := by
  rcases hs with ⟨h1, _⟩ | ⟨order, next, recip, hgo, hens, h1, _, _⟩
  · subst h1
    exact ⟨os, hg, rfl⟩
  · subst h1
    by_cases hk : oid = oid2
    · subst hk
      rw [hgo] at hg
      injection hg with hoo
      have hnext : next = os.status := by
        have hfix := ensure_transition_terminal_fix order.status next
          (by rw [hoo]; exact ht) hens
        rw [hoo] at hfix
        exact hfix
      refine ⟨{ order with status := next,
                           seen_event_ids := setInsert order.seen_event_ids ev.id },
        ?_, hnext⟩
      rw [get_order_put_order, hgo]
      simp
    · refine ⟨os, ?_, rfl⟩
      rw [get_order_put_order, hg]
      simp [hk]

/-- A commit of the common shape never touches the validated-listings set. -/
theorem okShape_validated_unchanged {ev : NostrEvent}
    {mt : TradeListingMessageType} {pl : TLPayload} {oid2 : String}
    {st st2 : TradeListingState} {outs : List OutboundEvent}
    (hs : okShape ev mt pl oid2 st st2 outs) :
    st2.validated_listings = st.validated_listings := by
  rcases hs with ⟨h1, _⟩ | ⟨_, _, _, _, _, h1, _, _⟩ <;> subst h1 <;> rfl

/-- One dispatcher step preserves any terminal status already committed,
whichever handler it routes to. -/
theorem apply_step_preserves_terminal (ors : Oracles) (s : DispatchStep)
    (st : TradeListingState) (oid : String) (os : TradeOrderState)
    (hg : get_order st oid = some os)
    (ht : isTerminalStatus os.status = true) :
    ∃ os2, get_order (apply_step ors s st) oid = some os2 ∧
      os2.status = os.status := by
  unfold apply_step
  cases hd : dispatch ors s st with
  | error e => exact ⟨os, hg, rfl⟩
  | ok r =>
    obtain ⟨st2, outs⟩ := r
    obtain ⟨inp, ev, lastr, la, oidq⟩ := s
    unfold dispatch at hd
    cases inp with
    | orderRequest p =>
      cases oidq with
      | none => simp [handle_order_request] at hd
      | some oid2 =>
        rcases handle_order_request_state_shape _ _ _ _ _ _ _ hd with
          ⟨h1, _⟩ | ⟨o, hex, h1⟩
        · subst h1
          exact ⟨os, hg, rfl⟩
        · subst h1
          rw [get_order_insert_order]
          by_cases hk : oid = o.order_id
          · exfalso
            rw [order_exists_eq_isSome, ← hk, hg] at hex
            simp at hex
          · rw [if_neg hk]
            exact ⟨os, hg, rfl⟩
    | orderResponse p =>
      cases oidq with
      | none => simp [handle_order_response] at hd
      | some oid2 =>
        exact okShape_preserves_terminal oid os
          (handle_order_response_shape _ _ _ _ _ _ hd) hg ht
    | orderRevision p =>
      cases oidq with
      | none => simp [handle_order_revision] at hd
      | some oid2 =>
        exact okShape_preserves_terminal oid os
          (handle_order_revision_shape _ _ _ _ _ _ _ hd) hg ht
    | orderRevisionResponse mt p =>
      cases oidq with
      | none => simp [handle_order_revision_response] at hd
      | some oid2 =>
        exact okShape_preserves_terminal oid os
          (handle_order_revision_response_shape _ _ _ _ _ _ _ hd) hg ht
    | question p =>
      cases oidq with
      | none => simp [handle_question] at hd
      | some oid2 =>
        exact okShape_preserves_terminal oid os
          (handle_question_shape _ _ _ _ _ _ hd) hg ht
    | answer p =>
      cases oidq with
      | none => simp [handle_answer] at hd
      | some oid2 =>
        exact okShape_preserves_terminal oid os
          (handle_answer_shape _ _ _ _ _ _ _ hd) hg ht
    | discountRequest p =>
      cases oidq with
      | none => simp [handle_discount_request] at hd
      | some oid2 =>
        exact okShape_preserves_terminal oid os
          (handle_discount_request_shape _ _ _ _ _ _ hd) hg ht
    | discountOffer p =>
      cases oidq with
      | none => simp [handle_discount_offer] at hd
      | some oid2 =>
        exact okShape_preserves_terminal oid os
          (handle_discount_offer_shape _ _ _ _ _ _ hd) hg ht
    | discountDecision mt p =>
      cases oidq with
      | none => simp [handle_discount_decision] at hd
      | some oid2 =>
        exact okShape_preserves_terminal oid os
          (handle_discount_decision_shape _ _ _ _ _ _ _ hd) hg ht
    | cancel p =>
      cases oidq with
      | none => simp [handle_cancel] at hd
      | some oid2 =>
        exact okShape_preserves_terminal oid os
          (handle_cancel_shape _ _ _ _ _ _ hd) hg ht
    | fulfillmentUpdate p =>
      cases oidq with
      | none => simp [handle_fulfillment_update] at hd
      | some oid2 =>
        exact okShape_preserves_terminal oid os
          (handle_fulfillment_update_shape _ _ _ _ _ _ hd) hg ht
    | receipt p =>
      cases oidq with
      | none => simp [handle_receipt] at hd
      | some oid2 =>
        exact okShape_preserves_terminal oid os
          (handle_receipt_shape _ _ _ _ _ _ hd) hg ht
    | listingValidate p =>
      rcases handle_listing_validate_request_state_shape _ _ _ _ _ _ _ hd with
        ⟨h1 | h1, _⟩
      · subst h1
        exact ⟨os, hg, rfl⟩
      · subst h1
        exact ⟨os, hg, rfl⟩

/-- One dispatcher step can only grow the validated-listings set. -/
theorem apply_step_preserves_validated (ors : Oracles) (s : DispatchStep)
    (st : TradeListingState) (x : String)
    (h : st.validated_listings.contains x = true) :
    (apply_step ors s st).validated_listings.contains x = true := by
  unfold apply_step
  cases hd : dispatch ors s st with
  | error e => exact h
  | ok r =>
    obtain ⟨st2, outs⟩ := r
    obtain ⟨inp, ev, lastr, la, oidq⟩ := s
    unfold dispatch at hd
    cases inp with
    | orderRequest p =>
      cases oidq with
      | none => simp [handle_order_request] at hd
      | some oid2 =>
        rcases handle_order_request_state_shape _ _ _ _ _ _ _ hd with
          ⟨h1, _⟩ | ⟨o, hex, h1⟩
        · subst h1
          exact h
        · subst h1
          rw [validated_insert_order]
          exact h
    | orderResponse p =>
      cases oidq with
      | none => simp [handle_order_response] at hd
      | some oid2 =>
        rw [okShape_validated_unchanged (handle_order_response_shape _ _ _ _ _ _ hd)]
        exact h
    | orderRevision p =>
      cases oidq with
      | none => simp [handle_order_revision] at hd
      | some oid2 =>
        rw [okShape_validated_unchanged (handle_order_revision_shape _ _ _ _ _ _ _ hd)]
        exact h
    | orderRevisionResponse mt p =>
      cases oidq with
      | none => simp [handle_order_revision_response] at hd
      | some oid2 =>
        rw [okShape_validated_unchanged
          (handle_order_revision_response_shape _ _ _ _ _ _ _ hd)]
        exact h
    | question p =>
      cases oidq with
      | none => simp [handle_question] at hd
      | some oid2 =>
        rw [okShape_validated_unchanged (handle_question_shape _ _ _ _ _ _ hd)]
        exact h
    | answer p =>
      cases oidq with
      | none => simp [handle_answer] at hd
      | some oid2 =>
        rw [okShape_validated_unchanged (handle_answer_shape _ _ _ _ _ _ _ hd)]
        exact h
    | discountRequest p =>
      cases oidq with
      | none => simp [handle_discount_request] at hd
      | some oid2 =>
        rw [okShape_validated_unchanged (handle_discount_request_shape _ _ _ _ _ _ hd)]
        exact h
    | discountOffer p =>
      cases oidq with
      | none => simp [handle_discount_offer] at hd
      | some oid2 =>
        rw [okShape_validated_unchanged (handle_discount_offer_shape _ _ _ _ _ _ hd)]
        exact h
    | discountDecision mt p =>
      cases oidq with
      | none => simp [handle_discount_decision] at hd
      | some oid2 =>
        rw [okShape_validated_unchanged
          (handle_discount_decision_shape _ _ _ _ _ _ _ hd)]
        exact h
    | cancel p =>
      cases oidq with
      | none => simp [handle_cancel] at hd
      | some oid2 =>
        rw [okShape_validated_unchanged (handle_cancel_shape _ _ _ _ _ _ hd)]
        exact h
    | fulfillmentUpdate p =>
      cases oidq with
      | none => simp [handle_fulfillment_update] at hd
      | some oid2 =>
        rw [okShape_validated_unchanged
          (handle_fulfillment_update_shape _ _ _ _ _ _ hd)]
        exact h
    | receipt p =>
      cases oidq with
      | none => simp [handle_receipt] at hd
      | some oid2 =>
        rw [okShape_validated_unchanged (handle_receipt_shape _ _ _ _ _ _ hd)]
        exact h
    | listingValidate p =>
      rcases handle_listing_validate_request_state_shape _ _ _ _ _ _ _ hd with
        ⟨h1 | h1, _⟩
      · subst h1
        exact h
      · subst h1
        exact mem_validated_mark _ _ _ h

/-- Terminal statuses persist through any sequence of dispatcher steps. -/
theorem run_trace_preserves_terminal (ors : Oracles)
    (steps : List DispatchStep) :
    ∀ (st : TradeListingState) (oid : String) (os : TradeOrderState),
      get_order st oid = some os → isTerminalStatus os.status = true →
      ∃ os2, get_order (run_trace ors steps st) oid = some os2 ∧
        os2.status = os.status := by
  induction steps with
  | nil =>
    intro st oid os hg ht
    exact ⟨os, hg, rfl⟩
  | cons s rest ih =>
    intro st oid os hg ht
    obtain ⟨os1, hg1, hs1⟩ := apply_step_preserves_terminal ors s st oid os hg ht
    obtain ⟨os2, hg2, hs2⟩ := ih (apply_step ors s st) oid os1 hg1 (by rw [hs1]; exact ht)
    exact ⟨os2, hg2, hs2.trans hs1⟩

/-- The validated set only grows through any sequence of dispatcher steps. -/
theorem run_trace_preserves_validated (ors : Oracles)
    (steps : List DispatchStep) :
    ∀ (st : TradeListingState) (x : String),
      st.validated_listings.contains x = true →
      (run_trace ors steps st).validated_listings.contains x = true := by
  induction steps with
  | nil =>
    intro st x h
    exact h
  | cons s rest ih =>
    intro st x h
    exact ih (apply_step ors s st) x (apply_step_preserves_validated ors s st x h)

/-- `mark_event_seen` leaves the validated-listings set untouched. -/
theorem validated_mark_event_seen (st : TradeListingState) (oid eid : String) :
    (mark_event_seen st oid eid).1.validated_listings = st.validated_listings := by
  unfold mark_event_seen
  cases hg : get_order st oid <;> rfl

/-- C4: in every sequence of dispatcher steps, an order whose status is
terminal (Declined, Cancelled or Completed) keeps exactly that status: no
later step commits a different one. -/
theorem C4_terminal_status_stable (ors : Oracles) (steps : List DispatchStep)
    (st : TradeListingState) (oid : String) (os : TradeOrderState)
    (hg : get_order st oid = some os)
    (ht : isTerminalStatus os.status = true) :
    ∃ os2, get_order (run_trace ors steps st) oid = some os2 ∧
      os2.status = os.status :=
  run_trace_preserves_terminal ors steps st oid os hg ht

/-- Oracles whose transport finds nothing and whose validator accepts,
used to instantiate trace theorems on concrete inputs. -/
def oraclesTrivial : Oracles :=
  { fetchById := fun _ => FetchByIdResult.notFound
    fetchEvents := fun _ => Except.ok []
    validator := fun _ => Except.ok () }

/-- A cancelled order fixture. -/
def osCancelled : TradeOrderState :=
  { order_id := "ord-1"
    listing_addr := "30402:S:l1"
    buyer_pubkey := "B"
    seller_pubkey := "S"
    status := TradeOrderStatus.Cancelled
    seen_event_ids := ["e0"] }

/-- A state holding only the cancelled order fixture. -/
def stCancelled : TradeListingState :=
  { validated_listings := []
    orders := [("ord-1", osCancelled)] }

/-- A fulfillment-update dispatch against the cancelled order fixture. -/
def stepFulfillAfterCancel : DispatchStep :=
  { input := HandlerInput.fulfillmentUpdate { note := none }
    event := { id := "e1", pubkey := "S", created_at := 11,
               kind := NostrKind.Custom 5815 }
    listing_addr_str := "30402:S:l1"
    listing_addr := { kind := 30402, seller_pubkey := "S", listing_id := "l1" }
    order_id := some "ord-1" }

/-- Witness for C4 at a concrete input: a cancelled order stays cancelled
across a fulfillment-update step. -/
theorem C4_terminal_status_stable_witness :
    get_order stCancelled "ord-1" = some osCancelled ∧
    isTerminalStatus osCancelled.status = true ∧
    ∃ os2, get_order (run_trace oraclesTrivial [stepFulfillAfterCancel] stCancelled)
        "ord-1" = some os2 ∧ os2.status = osCancelled.status :=
  ⟨by decide, by decide,
    C4_terminal_status_stable oraclesTrivial [stepFulfillAfterCancel] stCancelled
      "ord-1" osCancelled (by decide) (by decide)⟩

/-- C10: the validated-listings set is monotone: every state-store
operation (`mark_listing_validated`, `put_order`, `insert_order`,
`mark_event_seen`) and every sequence of dispatcher steps keeps every
already-validated listing address validated. -/
theorem C10_validated_listings_monotone (ors : Oracles)
    (st : TradeListingState) (x : String)
    (h : st.validated_listings.contains x = true) :
    (∀ a, (mark_listing_validated st a).validated_listings.contains x = true) ∧
    (∀ k o, (put_order st k o).validated_listings.contains x = true) ∧
    (∀ o, (insert_order st o).validated_listings.contains x = true) ∧
    (∀ oid eid, (mark_event_seen st oid eid).1.validated_listings.contains x = true) ∧
    (∀ steps, (run_trace ors steps st).validated_listings.contains x = true) := by
  refine ⟨?_, ?_, ?_, ?_, ?_⟩
  · intro a
    exact mem_validated_mark st a x h
  · intro k o
    rw [validated_put_order]
    exact h
  · intro o
    rw [validated_insert_order]
    exact h
  · intro oid eid
    rw [validated_mark_event_seen]
    exact h
  · intro steps
    exact run_trace_preserves_validated ors steps st x h

/-- A state with one validated listing and no orders. -/
def stValidated : TradeListingState :=
  { validated_listings := ["30402:S:l1"]
    orders := [] }

/-- A listing-validate dispatch for a second listing address. -/
def stepValidateOther : DispatchStep :=
  { input := HandlerInput.listingValidate { listing_event := none }
    event := { id := "e2", pubkey := "B", created_at := 12,
               kind := NostrKind.Custom 5801 }
    listing_addr_str := "30402:S:l2"
    listing_addr := { kind := 30402, seller_pubkey := "S", listing_id := "l2" }
    order_id := none }

/-- Witness for C10 at a concrete input: an already-validated address stays
validated across a listing-validate step for another address. -/
theorem C10_validated_listings_monotone_witness :
    stValidated.validated_listings.contains "30402:S:l1" = true ∧
    (run_trace oraclesTrivial [stepValidateOther] stValidated).validated_listings.contains
      "30402:S:l1" = true :=
  ⟨by decide,
    (C10_validated_listings_monotone oraclesTrivial stValidated "30402:S:l1"
      (by decide)).2.2.2.2 [stepValidateOther]⟩

/-- C6: on an existing, not-yet-seen order, `handle_cancel` fails with
`Unauthorized` unless the sender is the order's buyer or seller; on success
the order's status becomes `Cancelled` and exactly one outbound Cancel
envelope goes to the other party (seller if the sender is the buyer, buyer
otherwise). -/
theorem C6_cancel_authorization_and_recipient (ev : NostrEvent)
    (p : TradeListingCancel) (oid : String) (st : TradeListingState)
    (os : TradeOrderState)
    (hg : get_order st oid = some os)
    (hseen : is_event_seen st oid ev.id = false) :
    (ev.pubkey ≠ os.buyer_pubkey ∧ ev.pubkey ≠ os.seller_pubkey →
      handle_cancel ev p (some oid) st =
        Except.error TradeListingDvmError.Unauthorized) ∧
    (∀ st2 outs, handle_cancel ev p (some oid) st = Except.ok (st2, outs) →
      (∃ os2, get_order st2 oid = some os2 ∧
        os2.status = TradeOrderStatus.Cancelled) ∧
      outs = [send_envelope
        (if ev.pubkey = os.buyer_pubkey then os.seller_pubkey else os.buyer_pubkey)
        TradeListingMessageType.Cancel os.listing_addr (some oid)
        (TLPayload.cancel p)]) := by
  constructor
  · intro hna
    simp only [handle_cancel, hseen, Bool.false_eq_true, if_false, hg]
    rw [if_pos hna]
  · intro st2 outs h
    simp only [handle_cancel, hseen, Bool.false_eq_true, if_false, hg] at h
    split at h
    · exact Except.noConfusion h
    · split at h
      · exact Except.noConfusion h
      · rename_i hens
        injection h with h12
        injection h12 with h1 h2
        constructor
        · refine ⟨{ os with status := TradeOrderStatus.Cancelled,
                            seen_event_ids := setInsert os.seen_event_ids ev.id },
            ?_, rfl⟩
          rw [← h1, get_order_put_order, hg]
          simp
        · exact h2.symm

/-- A requested order fixture (the state after scenario S1). -/
def osRequested : TradeOrderState :=
  { order_id := "ord-1"
    listing_addr := "30402:S:l1"
    buyer_pubkey := "B"
    seller_pubkey := "S"
    status := TradeOrderStatus.Requested
    seen_event_ids := ["e0"] }

/-- A state holding a validated listing and the requested order fixture. -/
def stRequested : TradeListingState :=
  { validated_listings := ["30402:S:l1"]
    orders := [("ord-1", osRequested)] }

/-- A Cancel event authored by the buyer of the order fixture. -/
def evCancelByBuyer : NostrEvent :=
  { id := "e3", pubkey := "B", created_at := 13, kind := NostrKind.Custom 5814 }

/-- Witness for C6 at a concrete input: the buyer cancels the requested
order; the outbound envelope goes to the seller. -/
theorem C6_cancel_authorization_and_recipient_witness :
    get_order stRequested "ord-1" = some osRequested ∧
    is_event_seen stRequested "ord-1" evCancelByBuyer.id = false ∧
    (∀ st2 outs,
      handle_cancel evCancelByBuyer { note := none } (some "ord-1") stRequested =
        Except.ok (st2, outs) →
      (∃ os2, get_order st2 "ord-1" = some os2 ∧
        os2.status = TradeOrderStatus.Cancelled) ∧
      outs = [send_envelope
        (if evCancelByBuyer.pubkey = osRequested.buyer_pubkey then
          osRequested.seller_pubkey else osRequested.buyer_pubkey)
        TradeListingMessageType.Cancel osRequested.listing_addr (some "ord-1")
        (TLPayload.cancel { note := none })]) :=
  ⟨by decide, by decide,
    (C6_cancel_authorization_and_recipient evCancelByBuyer { note := none }
      "ord-1" stRequested osRequested (by decide) (by decide)).2⟩

/-- The parsed address of the listing fixture. -/
def laS : TradeListingAddress :=
  { kind := 30402, seller_pubkey := "S", listing_id := "l1" }

/-- An order-request payload whose buyer pubkey does not match the event
author used below. -/
def payloadBadBuyer : TradeOrder :=
  { order_id := "ord-1", listing_addr := "30402:S:l1",
    buyer_pubkey := "EVE", seller_pubkey := "S" }

/-- An order-request event authored by a third party. -/
def evOrderRequestM : NostrEvent :=
  { id := "e4", pubkey := "M", created_at := 14, kind := NostrKind.Custom 5803 }

/-- Counterexample to C3 as stated: with the order already existing,
`handle_order_request` returns a silent `Ok` even though
`payload.buyer_pubkey` differs from the event author — the pubkey
requirements are not enforced on the replay path. -/
theorem C3_order_request_counterexample :
    payloadBadBuyer.buyer_pubkey ≠ evOrderRequestM.pubkey ∧
    handle_order_request evOrderRequestM payloadBadBuyer laS (some "ord-1")
      stRequested = Except.ok (stRequested, []) := by
  decide

/-- C3 (amended): `handle_order_request` checks, in order: payload
order id and listing address against the envelope (`InvalidOrder`), the
validated-listings set (`ListingNotValidated`), order existence (silent
idempotent success, with no pubkey checks), the payload buyer/seller
pubkeys against the author and the parsed address (`Unauthorized`), and
otherwise inserts a fresh `Requested` order seeded with the event id and
sends one OrderRequest envelope to the payload's seller pubkey. -/
theorem C3_order_request_amended (ev : NostrEvent) (payload : TradeOrder)
    (la : TradeListingAddress) (oid : String) (st : TradeListingState) :
    (payload.order_id ≠ oid ∨ payload.listing_addr ≠ la.as_str →
      handle_order_request ev payload la (some oid) st =
        Except.error TradeListingDvmError.InvalidOrder) ∧
    (payload.order_id = oid → payload.listing_addr = la.as_str →
      (is_listing_validated st payload.listing_addr = false →
        handle_order_request ev payload la (some oid) st =
          Except.error TradeListingDvmError.ListingNotValidated) ∧
      (is_listing_validated st payload.listing_addr = true →
        (order_exists st oid = true →
          handle_order_request ev payload la (some oid) st = Except.ok (st, [])) ∧
        (order_exists st oid = false →
          (payload.buyer_pubkey ≠ ev.pubkey ∨
              payload.seller_pubkey ≠ la.seller_pubkey →
            handle_order_request ev payload la (some oid) st =
              Except.error TradeListingDvmError.Unauthorized) ∧
          (payload.buyer_pubkey = ev.pubkey →
              payload.seller_pubkey = la.seller_pubkey →
            handle_order_request ev payload la (some oid) st =
              Except.ok (insert_order st
                { order_id := oid, listing_addr := payload.listing_addr,
                  buyer_pubkey := payload.buyer_pubkey,
                  seller_pubkey := payload.seller_pubkey,
                  status := TradeOrderStatus.Requested,
                  seen_event_ids := [ev.id] },
                [send_envelope payload.seller_pubkey
                  TradeListingMessageType.OrderRequest payload.listing_addr
                  (some oid) (TLPayload.order payload)]))))) := by
  constructor
  · intro hbad
    simp only [handle_order_request]
    rw [if_pos hbad]
  · intro h1 h2
    have hok : ¬ (payload.order_id ≠ oid ∨ payload.listing_addr ≠ la.as_str) := by
      simp [h1, h2]
    constructor
    · intro h3
      simp only [handle_order_request]
      rw [if_neg hok, if_pos (by simp [h3])]
    · intro h3
      have hv : ¬ ¬ (is_listing_validated st payload.listing_addr = true) := by
        simp [h3]
      constructor
      · intro hex
        simp only [handle_order_request]
        rw [if_neg hok, if_neg hv, if_pos hex]
      · intro hex
        constructor
        · intro hbadpk
          simp only [handle_order_request]
          rw [if_neg hok, if_neg hv, if_neg (by simp [hex]), if_pos hbadpk]
        · intro hb hs
          simp only [handle_order_request]
          rw [if_neg hok, if_neg hv, if_neg (by simp [hex]),
            if_neg (by simp [hb, hs])]

/-- A well-formed order-request payload matching the buyer event below. -/
def payloadGoodOrder : TradeOrder :=
  { order_id := "ord-1", listing_addr := "30402:S:l1",
    buyer_pubkey := "B", seller_pubkey := "S" }

/-- An order-request event authored by the buyer. -/
def evOrderRequestB : NostrEvent :=
  { id := "e5", pubkey := "B", created_at := 15, kind := NostrKind.Custom 5803 }

/-- Witness for the amended C3 at a concrete input: the happy path inserts
the order and addresses the seller. -/
theorem C3_order_request_amended_witness :
    handle_order_request evOrderRequestB payloadGoodOrder laS (some "ord-1")
      stValidated =
      Except.ok (insert_order stValidated
        { order_id := "ord-1", listing_addr := payloadGoodOrder.listing_addr,
          buyer_pubkey := payloadGoodOrder.buyer_pubkey,
          seller_pubkey := payloadGoodOrder.seller_pubkey,
          status := TradeOrderStatus.Requested,
          seen_event_ids := [evOrderRequestB.id] },
        [send_envelope payloadGoodOrder.seller_pubkey
          TradeListingMessageType.OrderRequest payloadGoodOrder.listing_addr
          (some "ord-1") (TLPayload.order payloadGoodOrder)]) :=
  ((((C3_order_request_amended evOrderRequestB payloadGoodOrder laS "ord-1"
      stValidated).2 (by decide) (by decide)).2 (by decide)).2
      (by decide)).2 (by decide) (by decide)

/-- An order-revision event whose id is already recorded as seen on the
order fixture. -/
def evRevisionStale : NostrEvent :=
  { id := "e0", pubkey := "S", created_at := 16, kind := NostrKind.Custom 5805 }

/-- Counterexample to C2 as stated: `handle_order_revision` validates the
payload order id before the replay check, so a seen event with a
mismatched payload order id yields `InvalidOrder`, not the silent `Ok` the
claim requires for every seen event. -/
theorem C2_replay_counterexample :
    is_event_seen stRequested "ord-1" evRevisionStale.id = true ∧
    handle_order_revision evRevisionStale { order_id := "other" } laS
      (some "ord-1") stRequested =
      Except.error TradeListingDvmError.InvalidOrder := by
  decide

/-- C2 (amended): every existing-order handler whose event id is already
seen returns `Ok` with the state unchanged and nothing sent — provided the
handler's pre-lock payload checks pass (`handle_order_revision`,
`handle_discount_request` and `handle_discount_offer` require the payload
order id to match, `handle_question` and `handle_answer` require it to
match when present); those handlers reject mismatched payloads before the
replay check. -/
theorem C2_replay_suppression (ev : NostrEvent) (oid : String)
    (st : TradeListingState) (la : TradeListingAddress)
    (hseen : is_event_seen st oid ev.id = true) :
    (∀ p, handle_order_response ev p (some oid) st = Except.ok (st, [])) ∧
    (∀ p : TradeOrderRevision, p.order_id = oid →
      handle_order_revision ev p la (some oid) st = Except.ok (st, [])) ∧
    (∀ mt p, handle_order_revision_response ev mt p (some oid) st =
      Except.ok (st, [])) ∧
    (∀ p : TradeQuestion, p.order_id = none ∨ p.order_id = some oid →
      handle_question ev p (some oid) st = Except.ok (st, [])) ∧
    (∀ p : TradeAnswer, p.order_id = none ∨ p.order_id = some oid →
      handle_answer ev p la (some oid) st = Except.ok (st, [])) ∧
    (∀ p : TradeDiscountRequest, p.order_id = oid →
      handle_discount_request ev p (some oid) st = Except.ok (st, [])) ∧
    (∀ p : TradeDiscountOffer, p.order_id = oid →
      handle_discount_offer ev p (some oid) st = Except.ok (st, [])) ∧
    (∀ mt p, handle_discount_decision ev mt p (some oid) st =
      Except.ok (st, [])) ∧
    (∀ p, handle_cancel ev p (some oid) st = Except.ok (st, [])) ∧
    (∀ p, handle_fulfillment_update ev p (some oid) st = Except.ok (st, [])) ∧
    (∀ p, handle_receipt ev p (some oid) st = Except.ok (st, [])) := by
  refine ⟨?_, ?_, ?_, ?_, ?_, ?_, ?_, ?_, ?_, ?_, ?_⟩
  · intro p
    simp [handle_order_response, hseen]
  · intro p hp
    simp [handle_order_revision, hseen, hp]
  · intro mt p
    simp [handle_order_revision_response, hseen]
  · intro p hp
    rcases hp with hp | hp <;> simp [handle_question, hseen, hp]
  · intro p hp
    rcases hp with hp | hp <;> simp [handle_answer, hseen, hp]
  · intro p hp
    simp [handle_discount_request, hseen, hp]
  · intro p hp
    simp [handle_discount_offer, hseen, hp]
  · intro mt p
    simp [handle_discount_decision, hseen]
  · intro p
    simp [handle_cancel, hseen]
  · intro p
    simp [handle_fulfillment_update, hseen]
  · intro p
    simp [handle_receipt, hseen]

/-- An order-response event whose id is already recorded as seen on the
order fixture. -/
def evResponseStale : NostrEvent :=
  { id := "e0", pubkey := "S", created_at := 17, kind := NostrKind.Custom 5804 }

/-- Witness for the amended C2 at a concrete input: a seen order-response
event is a silent no-op. -/
theorem C2_replay_suppression_witness :
    is_event_seen stRequested "ord-1" evResponseStale.id = true ∧
    handle_order_response evResponseStale { accepted := true } (some "ord-1")
      stRequested = Except.ok (stRequested, []) :=
  ⟨by decide,
    (C2_replay_suppression evResponseStale "ord-1" stRequested laS
      (by decide)).1 { accepted := true }⟩

/-- Structural well-formedness of an outbound event as `send_envelope`
builds it: kind matches the message type, tags are `p`, `a` and (iff the
order id is present) `d`, in that order, matching the envelope fields. -/
def outboundWellFormed (o : OutboundEvent) : Prop :=
  o.kind = o.message_type.kind ∧
  o.tags = [["p", o.recipient], ["a", o.listing_addr]] ++
    (match o.order_id with
     | some d => [["d", d]]
     | none => [])

/-- Every event `send_envelope` builds is well-formed. -/
theorem send_envelope_wellFormed (r : String) (mt : TradeListingMessageType)
    (la : String) (oid : Option String) (pl : TLPayload) :
    outboundWellFormed (send_envelope r mt la oid pl) :=
  ⟨rfl, rfl⟩

/-- The outbound of a common-shape commit is well-formed, carries the
inbound order id, and carries the order's stored listing address. -/
theorem okShape_outbound {ev : NostrEvent} {mt : TradeListingMessageType}
    {pl : TLPayload} {oid2 : String} {st st2 : TradeListingState}
    {outs : List OutboundEvent}
    (hs : okShape ev mt pl oid2 st st2 outs) :
    ∀ o ∈ outs, outboundWellFormed o ∧ o.order_id = some oid2 ∧
      ∃ order, get_order st oid2 = some order ∧
        o.listing_addr = order.listing_addr := by
  intro o ho
  rcases hs with ⟨_, houts⟩ | ⟨order, next, recip, hgo, hens, _, houts, _⟩
  · subst houts
    simp at ho
  · subst houts
    simp only [List.mem_singleton] at ho
    subst ho
    exact ⟨send_envelope_wellFormed _ _ _ _ _, rfl, order, hgo, rfl⟩

/-- A successful `handle_order_request` sends nothing (replay) or one
envelope carrying the payload's listing address, which it has checked
against the canonical form of the parsed inbound address. -/
theorem handle_order_request_out_shape (ev : NostrEvent) (payload : TradeOrder)
    (la : TradeListingAddress) (oid : String) (st st2 : TradeListingState)
    (outs : List OutboundEvent)
    (h : handle_order_request ev payload la (some oid) st = Except.ok (st2, outs)) :
    outs = [] ∨ (payload.listing_addr = la.as_str ∧
      outs = [send_envelope payload.seller_pubkey
        TradeListingMessageType.OrderRequest payload.listing_addr (some oid)
        (TLPayload.order payload)]) := by
  simp only [handle_order_request] at h
  split at h
  · exact Except.noConfusion h
  · rename_i hok
    split at h
    · exact Except.noConfusion h
    · split at h
      · injection h with h12
        injection h12 with h1 h2
        exact Or.inl h2.symm
      · split at h
        · exact Except.noConfusion h
        · injection h with h12
          injection h12 with h1 h2
          refine Or.inr ⟨?_, h2.symm⟩
          rcases not_or.mp hok with ⟨_, haddr⟩
          exact not_not.mp haddr

/-- C5 (amended): every outbound event of a successful dispatch is
well-formed (kind = message_type.kind(), tags p, a and - iff an order id is
present - d, in that order, matching the envelope fields) and carries the
inbound order id; its listing address is the inbound envelope's for
OrderRequest (canonical form) and ListingValidateRequest replies, and the
order's stored listing address for every existing-order handler. -/
theorem C5_outbound_envelope_amended (ors : Oracles) (s : DispatchStep)
    (st st2 : TradeListingState) (outs : List OutboundEvent)
    (hd : dispatch ors s st = Except.ok (st2, outs)) :
    ∀ o ∈ outs, outboundWellFormed o ∧
      (∀ p, s.input = HandlerInput.orderRequest p →
        o.order_id = s.order_id ∧ o.listing_addr = s.listing_addr.as_str) ∧
      (∀ p, s.input = HandlerInput.listingValidate p →
        o.order_id = none ∧ o.listing_addr = s.listing_addr_str) ∧
      ((∀ p, s.input ≠ HandlerInput.orderRequest p) →
       (∀ p, s.input ≠ HandlerInput.listingValidate p) →
        o.order_id = s.order_id ∧
        ∃ oid order, s.order_id = some oid ∧ get_order st oid = some order ∧
          o.listing_addr = order.listing_addr) := by
  obtain ⟨inp, ev, lastr, la, oidq⟩ := s
  unfold dispatch at hd
  cases inp with
  | orderRequest p =>
    cases oidq with
    | none => simp [handle_order_request] at hd
    | some oid2 =>
      intro o ho
      rcases handle_order_request_out_shape _ _ _ _ _ _ _ hd with
        houts | ⟨haddr, houts⟩
      · subst houts
        simp at ho
      · subst houts
        simp only [List.mem_singleton] at ho
        subst ho
        refine ⟨send_envelope_wellFormed _ _ _ _ _, ?_, ?_, ?_⟩
        · intro p2 hcon
          injection hcon with hpp
          exact ⟨rfl, haddr⟩
        · intro p2 hcon
          exact HandlerInput.noConfusion hcon
        · intro hno _
          exact absurd rfl (hno p)
  | orderResponse p =>
    cases oidq with
    | none => simp [handle_order_response] at hd
    | some oid2 =>
      intro o ho
      obtain ⟨hwf, hoid, order, hgo, haddr⟩ :=
        okShape_outbound (handle_order_response_shape _ _ _ _ _ _ hd) o ho
      exact ⟨hwf, fun p2 hcon => HandlerInput.noConfusion hcon,
        fun p2 hcon => HandlerInput.noConfusion hcon,
        fun _ _ => ⟨hoid, oid2, order, rfl, hgo, haddr⟩⟩
  | orderRevision p =>
    cases oidq with
    | none => simp [handle_order_revision] at hd
    | some oid2 =>
      intro o ho
      obtain ⟨hwf, hoid, order, hgo, haddr⟩ :=
        okShape_outbound (handle_order_revision_shape _ _ _ _ _ _ _ hd) o ho
      exact ⟨hwf, fun p2 hcon => HandlerInput.noConfusion hcon,
        fun p2 hcon => HandlerInput.noConfusion hcon,
        fun _ _ => ⟨hoid, oid2, order, rfl, hgo, haddr⟩⟩
  | orderRevisionResponse mt p =>
    cases oidq with
    | none => simp [handle_order_revision_response] at hd
    | some oid2 =>
      intro o ho
      obtain ⟨hwf, hoid, order, hgo, haddr⟩ :=
        okShape_outbound (handle_order_revision_response_shape _ _ _ _ _ _ _ hd) o ho
      exact ⟨hwf, fun p2 hcon => HandlerInput.noConfusion hcon,
        fun p2 hcon => HandlerInput.noConfusion hcon,
        fun _ _ => ⟨hoid, oid2, order, rfl, hgo, haddr⟩⟩
  | question p =>
    cases oidq with
    | none => simp [handle_question] at hd
    | some oid2 =>
      intro o ho
      obtain ⟨hwf, hoid, order, hgo, haddr⟩ :=
        okShape_outbound (handle_question_shape _ _ _ _ _ _ hd) o ho
      exact ⟨hwf, fun p2 hcon => HandlerInput.noConfusion hcon,
        fun p2 hcon => HandlerInput.noConfusion hcon,
        fun _ _ => ⟨hoid, oid2, order, rfl, hgo, haddr⟩⟩
  | answer p =>
    cases oidq with
    | none => simp [handle_answer] at hd
    | some oid2 =>
      intro o ho
      obtain ⟨hwf, hoid, order, hgo, haddr⟩ :=
        okShape_outbound (handle_answer_shape _ _ _ _ _ _ _ hd) o ho
      exact ⟨hwf, fun p2 hcon => HandlerInput.noConfusion hcon,
        fun p2 hcon => HandlerInput.noConfusion hcon,
        fun _ _ => ⟨hoid, oid2, order, rfl, hgo, haddr⟩⟩
  | discountRequest p =>
    cases oidq with
    | none => simp [handle_discount_request] at hd
    | some oid2 =>
      intro o ho
      obtain ⟨hwf, hoid, order, hgo, haddr⟩ :=
        okShape_outbound (handle_discount_request_shape _ _ _ _ _ _ hd) o ho
      exact ⟨hwf, fun p2 hcon => HandlerInput.noConfusion hcon,
        fun p2 hcon => HandlerInput.noConfusion hcon,
        fun _ _ => ⟨hoid, oid2, order, rfl, hgo, haddr⟩⟩
  | discountOffer p =>
    cases oidq with
    | none => simp [handle_discount_offer] at hd
    | some oid2 =>
      intro o ho
      obtain ⟨hwf, hoid, order, hgo, haddr⟩ :=
        okShape_outbound (handle_discount_offer_shape _ _ _ _ _ _ hd) o ho
      exact ⟨hwf, fun p2 hcon => HandlerInput.noConfusion hcon,
        fun p2 hcon => HandlerInput.noConfusion hcon,
        fun _ _ => ⟨hoid, oid2, order, rfl, hgo, haddr⟩⟩
  | discountDecision mt p =>
    cases oidq with
    | none => simp [handle_discount_decision] at hd
    | some oid2 =>
      intro o ho
      obtain ⟨hwf, hoid, order, hgo, haddr⟩ :=
        okShape_outbound (handle_discount_decision_shape _ _ _ _ _ _ _ hd) o ho
      exact ⟨hwf, fun p2 hcon => HandlerInput.noConfusion hcon,
        fun p2 hcon => HandlerInput.noConfusion hcon,
        fun _ _ => ⟨hoid, oid2, order, rfl, hgo, haddr⟩⟩
  | cancel p =>
    cases oidq with
    | none => simp [handle_cancel] at hd
    | some oid2 =>
      intro o ho
      obtain ⟨hwf, hoid, order, hgo, haddr⟩ :=
        okShape_outbound (handle_cancel_shape _ _ _ _ _ _ hd) o ho
      exact ⟨hwf, fun p2 hcon => HandlerInput.noConfusion hcon,
        fun p2 hcon => HandlerInput.noConfusion hcon,
        fun _ _ => ⟨hoid, oid2, order, rfl, hgo, haddr⟩⟩
  | fulfillmentUpdate p =>
    cases oidq with
    | none => simp [handle_fulfillment_update] at hd
    | some oid2 =>
      intro o ho
      obtain ⟨hwf, hoid, order, hgo, haddr⟩ :=
        okShape_outbound (handle_fulfillment_update_shape _ _ _ _ _ _ hd) o ho
      exact ⟨hwf, fun p2 hcon => HandlerInput.noConfusion hcon,
        fun p2 hcon => HandlerInput.noConfusion hcon,
        fun _ _ => ⟨hoid, oid2, order, rfl, hgo, haddr⟩⟩
  | receipt p =>
    cases oidq with
    | none => simp [handle_receipt] at hd
    | some oid2 =>
      intro o ho
      obtain ⟨hwf, hoid, order, hgo, haddr⟩ :=
        okShape_outbound (handle_receipt_shape _ _ _ _ _ _ hd) o ho
      exact ⟨hwf, fun p2 hcon => HandlerInput.noConfusion hcon,
        fun p2 hcon => HandlerInput.noConfusion hcon,
        fun _ _ => ⟨hoid, oid2, order, rfl, hgo, haddr⟩⟩
  | listingValidate p =>
    intro o ho
    obtain ⟨_, errs, houts⟩ :=
      handle_listing_validate_request_state_shape _ _ _ _ _ _ _ hd
    subst houts
    simp only [List.mem_singleton] at ho
    subst ho
    refine ⟨send_envelope_wellFormed _ _ _ _ _, ?_, ?_, ?_⟩
    · intro p2 hcon
      exact HandlerInput.noConfusion hcon
    · intro p2 hcon
      exact ⟨rfl, rfl⟩
    · intro _ hno
      exact absurd rfl (hno p)

/-- An order-response dispatch whose inbound envelope names a different
listing address than the one stored on the order. -/
def stepResponseOtherAddr : DispatchStep :=
  { input := HandlerInput.orderResponse { accepted := true }
    event := { id := "e6", pubkey := "S", created_at := 18,
               kind := NostrKind.Custom 5804 }
    listing_addr_str := "30402:S:l2"
    listing_addr := { kind := 30402, seller_pubkey := "S", listing_id := "l2" }
    order_id := some "ord-1" }

/-- The outbound envelope the dispatch of `stepResponseOtherAddr` sends. -/
def c5MismatchOut : OutboundEvent :=
  send_envelope "B" TradeListingMessageType.OrderResponse "30402:S:l1"
    (some "ord-1") (TLPayload.orderResponse { accepted := true })

/-- Counterexample to C5 as stated: an order-response whose inbound
envelope names listing address `30402:S:l2` succeeds against an order
stored under `30402:S:l1`, and the outbound envelope carries the stored
address, not the inbound one. -/
theorem C5_outbound_addr_counterexample :
    dispatch oraclesTrivial stepResponseOtherAddr stRequested =
      Except.ok
        ({ validated_listings := ["30402:S:l1"],
           orders := [("ord-1",
             { order_id := "ord-1", listing_addr := "30402:S:l1",
               buyer_pubkey := "B", seller_pubkey := "S",
               status := TradeOrderStatus.Accepted,
               seen_event_ids := ["e0", "e6"] })] },
         [c5MismatchOut]) ∧
    c5MismatchOut.listing_addr ≠ stepResponseOtherAddr.listing_addr_str := by
  decide

/-- An order-response dispatch whose inbound envelope matches the stored
listing address. -/
def stepResponseSame : DispatchStep :=
  { input := HandlerInput.orderResponse { accepted := true }
    event := { id := "e7", pubkey := "S", created_at := 19,
               kind := NostrKind.Custom 5804 }
    listing_addr_str := "30402:S:l1"
    listing_addr := laS
    order_id := some "ord-1" }

/-- The state after the dispatch of `stepResponseSame`. -/
def c5WitnessState : TradeListingState :=
  { validated_listings := ["30402:S:l1"]
    orders := [("ord-1",
      { order_id := "ord-1", listing_addr := "30402:S:l1",
        buyer_pubkey := "B", seller_pubkey := "S",
        status := TradeOrderStatus.Accepted,
        seen_event_ids := ["e0", "e7"] })] }

/-- The outbound envelope the dispatch of `stepResponseSame` sends. -/
def c5WitnessOut : OutboundEvent :=
  send_envelope "B" TradeListingMessageType.OrderResponse "30402:S:l1"
    (some "ord-1") (TLPayload.orderResponse { accepted := true })

/-- Witness for the amended C5 at a concrete input: the outbound of a
successful order-response dispatch is well-formed, carries the inbound
order id, and carries the order's stored listing address. -/
theorem C5_outbound_envelope_amended_witness :
    outboundWellFormed c5WitnessOut ∧
    c5WitnessOut.order_id = stepResponseSame.order_id ∧
    (∃ oid order, stepResponseSame.order_id = some oid ∧
      get_order stRequested oid = some order ∧
      c5WitnessOut.listing_addr = order.listing_addr) :=
  have h := C5_outbound_envelope_amended oraclesTrivial stepResponseSame
    stRequested c5WitnessState [c5WitnessOut] (by decide) c5WitnessOut
    (List.mem_singleton.mpr rfl)
  have h4 := h.2.2.2 (fun p hc => HandlerInput.noConfusion hc)
    (fun p hc => HandlerInput.noConfusion hc)
  ⟨h.1, h4.1, h4.2⟩

/-- A job-feedback outbound event as built by
`radroots_nostr_build_event_job_feedback(event, "error", Some(msg), None)`
in `handle_error` (`dvm.rs` lines 1014-1023): it references the offending
event id and carries a status string and the rendered error. -/
structure JobFeedback where
  ref_event_id : String
  status : String
  info : String
deriving DecidableEq, Repr

/-- `handle_error` from `handlers/dvm.rs` lines 1014-1023: build and send
one job-feedback event for the offending event. -/
def handle_error (error : TradeListingDvmError) (event : NostrEvent) :
    JobFeedback :=
  { ref_event_id := event.id, status := "error", info := dvmErrorMessage error }

/-- The error arm of the subscriber's handler task (`subscriber.rs` lines
88-101): `MissingRecipient` and `UnsupportedKind` are dropped silently;
every other error is routed to `handle_error`. -/
def subscriber_on_handler_error (err : TradeListingDvmError)
    (event : NostrEvent) : List JobFeedback :=
  match err with
  | TradeListingDvmError.MissingRecipient => []
  | TradeListingDvmError.UnsupportedKind => []
  | other => [handle_error other event]

/-- C9: a handler error of `UnsupportedKind` or `MissingRecipient` produces
no outbound event; every other handler error produces exactly one
job-feedback event referencing the offending event, with status "error"
and the error's string rendering. -/
theorem C9_error_feedback (err : TradeListingDvmError) (ev : NostrEvent) :
    (err = TradeListingDvmError.UnsupportedKind ∨
        err = TradeListingDvmError.MissingRecipient →
      subscriber_on_handler_error err ev = []) ∧
    (err ≠ TradeListingDvmError.UnsupportedKind →
      err ≠ TradeListingDvmError.MissingRecipient →
      subscriber_on_handler_error err ev =
        [{ ref_event_id := ev.id, status := "error",
           info := dvmErrorMessage err }]) := by
  constructor
  · intro h
    rcases h with h | h <;> subst h <;> rfl
  · intro h1 h2
    cases err <;> first
      | exact absurd rfl h1
      | exact absurd rfl h2
      | rfl

/-- Witness for C9 at a concrete input: an `Unauthorized` error on the
stale response event yields one feedback event with the rendered message. -/
theorem C9_error_feedback_witness :
    subscriber_on_handler_error TradeListingDvmError.Unauthorized evResponseStale =
      [{ ref_event_id := evResponseStale.id, status := "error",
         info := dvmErrorMessage TradeListingDvmError.Unauthorized }] :=
  (C9_error_feedback TradeListingDvmError.Unauthorized evResponseStale).2
    (by decide) (by decide)

/-- `latest_step` on an empty candidate. -/
theorem latest_step_none (kind : Nat) (ev : NostrEvent) :
    latest_step kind none ev =
      if ev.kind ≠ NostrKind.Custom kind then none else some ev := by
  unfold latest_step
  split <;> rfl

/-- `latest_step` on a present candidate. -/
theorem latest_step_some (kind : Nat) (cur ev : NostrEvent) :
    latest_step kind (some cur) ev =
      if ev.kind ≠ NostrKind.Custom kind then some cur
      else if ev.created_at ≤ cur.created_at then some cur else some ev := by
  unfold latest_step
  split <;> rfl

/-- The selection loop's candidate `created_at` never decreases. -/
theorem latest_fold_ge_acc (kind : Nat) (evs : List NostrEvent) :
    ∀ (a : NostrEvent) (e : NostrEvent),
      evs.foldl (latest_step kind) (some a) = some e →
      a.created_at ≤ e.created_at := by
  induction evs with
  | nil =>
    intro a e hf
    injection hf with he
    rw [he]
  | cons ev t ih =>
    intro a e hf
    rw [List.foldl_cons, latest_step_some] at hf
    split at hf
    · exact ih _ _ hf
    · split at hf
      · exact ih _ _ hf
      · rename_i hgt
        have h1 : ev.created_at ≤ e.created_at := ih _ _ hf
        have h2 : a.created_at ≤ ev.created_at :=
          Nat.le_of_lt (Nat.lt_of_not_le hgt)
        exact Nat.le_trans h2 h1

/-- The selection loop's result comes from the initial candidate or from a
kind-matching event of the list. -/
theorem latest_fold_origin (kind : Nat) (evs : List NostrEvent) :
    ∀ (acc : Option NostrEvent) (e : NostrEvent),
      evs.foldl (latest_step kind) acc = some e →
      acc = some e ∨ (e ∈ evs ∧ e.kind = NostrKind.Custom kind) := by
  induction evs with
  | nil =>
    intro acc e hf
    exact Or.inl hf
  | cons ev t ih =>
    intro acc e hf
    rw [List.foldl_cons] at hf
    rcases ih _ _ hf with hacc | ⟨hm, hk⟩
    · cases acc with
      | none =>
        rw [latest_step_none] at hacc
        split at hacc
        · exact Option.noConfusion hacc
        · rename_i hkind
          injection hacc with he
          subst he
          exact Or.inr ⟨List.mem_cons_self _ _, not_not.mp hkind⟩
      | some cur =>
        rw [latest_step_some] at hacc
        split at hacc
        · exact Or.inl hacc
        · rename_i hkind
          split at hacc
          · exact Or.inl hacc
          · injection hacc with he
            subst he
            exact Or.inr ⟨List.mem_cons_self _ _, not_not.mp hkind⟩
    · exact Or.inr ⟨List.mem_cons_of_mem _ hm, hk⟩

/-- The selection loop's result dominates the `created_at` of every
kind-matching event of the list. -/
theorem latest_fold_dominates (kind : Nat) (evs : List NostrEvent) :
    ∀ (acc : Option NostrEvent) (e : NostrEvent),
      evs.foldl (latest_step kind) acc = some e →
      ∀ e2 ∈ evs, e2.kind = NostrKind.Custom kind →
        e2.created_at ≤ e.created_at := by
  induction evs with
  | nil =>
    intro acc e hf e2 hm
    exact absurd hm (List.not_mem_nil e2)
  | cons ev t ih =>
    intro acc e hf e2 hm hk2
    rw [List.foldl_cons] at hf
    rcases List.mem_cons.mp hm with he2 | hm2
    · subst he2
      cases acc with
      | none =>
        have hs : latest_step kind none e2 = some e2 := by
          rw [latest_step_none, if_neg (by simpa using hk2)]
        rw [hs] at hf
        exact latest_fold_ge_acc kind t _ _ hf
      | some cur =>
        rw [latest_step_some, if_neg (by simpa using hk2)] at hf
        by_cases hle : e2.created_at ≤ cur.created_at
        · rw [if_pos hle] at hf
          exact Nat.le_trans hle (latest_fold_ge_acc kind t _ _ hf)
        · rw [if_neg hle] at hf
          exact latest_fold_ge_acc kind t _ _ hf
    · exact ih _ _ hf e2 hm2 hk2

/-- C7: a listing-validate request without an explicit pointer resolves
the listing from the events the transport returns for the filter
`(kind, author = parsed seller pubkey, identifier = parsed listing id)`,
selecting an event with the greatest `created_at` among those of the
listing kind; if the external validator accepts it, the address joins
`validated_listings` and one `ListingValidateResult` with `valid = true`
and empty errors goes to the original sender; if validation fails, the
reply carries `valid = false` with the single error and the validated set
is unchanged. -/
theorem C7_listing_validate_resolution (ors : Oracles) (ev : NostrEvent)
    (payload : TradeListingValidateRequest) (la_str : String)
    (addr : TradeListingAddress) (st : TradeListingState)
    (evs : List NostrEvent) (e : NostrEvent)
    (hptr : payload.listing_event = none)
    (hparse : TradeListingAddress.parse la_str = some addr)
    (hfetch : ors.fetchEvents (listing_filter addr) = Except.ok evs)
    (hsel : latest_listing_fold addr.kind evs = some e) :
    (e ∈ evs ∧ e.kind = NostrKind.Custom addr.kind ∧
      ∀ e2 ∈ evs, e2.kind = NostrKind.Custom addr.kind →
        e2.created_at ≤ e.created_at) ∧
    (send_validate_result ev la_str [] =
      send_envelope ev.pubkey TradeListingMessageType.ListingValidateResult
        la_str none (TLPayload.validateResult { valid := true, errors := [] })) ∧
    (ors.validator e = Except.ok () →
      handle_listing_validate_request ors ev payload la_str st =
        Except.ok (mark_listing_validated st la_str,
          [send_validate_result ev la_str []])) ∧
    (∀ err, ors.validator e = Except.error err →
      handle_listing_validate_request ors ev payload la_str st =
        Except.ok (st, [send_validate_result ev la_str [err]])) := by
  have horigin := latest_fold_origin addr.kind evs none e hsel
  refine ⟨?_, rfl, ?_, ?_⟩
  · rcases horigin with hacc | ⟨hm, hk⟩
    · exact Option.noConfusion hacc
    · exact ⟨hm, hk, latest_fold_dominates addr.kind evs none e hsel⟩
  · intro hval
    simp only [handle_listing_validate_request, hptr, fetch_listing_by_addr,
      hparse, hfetch, hsel, hval]
  · intro err hval
    simp only [handle_listing_validate_request, hptr, fetch_listing_by_addr,
      hparse, hfetch, hsel, hval]

/-- An older replaceable listing event for the listing fixture. -/
def listingEventOld : NostrEvent :=
  { id := "L1", pubkey := "S", created_at := 100, kind := NostrKind.Custom 30402 }

/-- A newer replaceable listing event for the listing fixture. -/
def listingEventNew : NostrEvent :=
  { id := "L2", pubkey := "S", created_at := 200, kind := NostrKind.Custom 30402 }

/-- Oracles whose transport returns the two listing events and whose
validator accepts. -/
def oraclesListing : Oracles :=
  { fetchById := fun _ => FetchByIdResult.notFound
    fetchEvents := fun _ => Except.ok [listingEventOld, listingEventNew]
    validator := fun _ => Except.ok () }

/-- The empty state. -/
def stEmpty : TradeListingState :=
  { validated_listings := [], orders := [] }

/-- A listing-validate request event authored by the buyer. -/
def evValidateB : NostrEvent :=
  { id := "e8", pubkey := "B", created_at := 20, kind := NostrKind.Custom 5801 }

/-- Witness for C7 at a concrete input: the newer listing event is
resolved, validation succeeds, the address is marked validated and one
valid reply goes to the sender. -/
theorem C7_listing_validate_resolution_witness :
    handle_listing_validate_request oraclesListing evValidateB
      { listing_event := none } "30402:S:l1" stEmpty =
      Except.ok (mark_listing_validated stEmpty "30402:S:l1",
        [send_validate_result evValidateB "30402:S:l1" []]) :=
  (C7_listing_validate_resolution oraclesListing evValidateB
    { listing_event := none } "30402:S:l1" laS stEmpty
    [listingEventOld, listingEventNew] listingEventNew rfl (by decide) rfl
    (by decide)).2.2.1 rfl

/-- Modelled from the spec (sections 3, 4.1): the inbound
`TradeListingEnvelope`, with the untyped JSON payload elided (payloads are
typed at dispatch in this model). -/
structure TradeListingEnvelope where
  message_type : TradeListingMessageType
  listing_addr : String
  order_id : Option String
deriving DecidableEq, Repr

/-- Modelled from the spec (section 4.1): `TradeListingEnvelope::validate`
checks `message_type.requires_order_id()` against `order_id.is_some()`
(they must agree). -/
def envelope_validate (env : TradeListingEnvelope) : Except String Unit :=
  if env.message_type.requires_order_id = env.order_id.isSome then Except.ok ()
  else Except.error "order id requirement violated"

/-- `tag_value` from `handlers/dvm.rs` lines 948-956: the first tag whose
first element is the key and which has a second element. -/
def tag_value (tags : List (List String)) (key : String) : Option String :=
  tags.findSome? (fun t => if t[0]? = some key then t[1]? else none)

/-- `tag_has_value` from `handlers/dvm.rs` lines 958-962. -/
def tag_has_value (tags : List (List String)) (key value : String) : Bool :=
  tags.any (fun t => t[0]? == some key && t[1]? == some value)

/-- The d-tag cross-check of `handle_event` (`dvm.rs` lines 105-112). -/
def handle_event_tag_d (tags : List (List String))
    (env : TradeListingEnvelope) : Except TradeListingDvmError Unit :=
  if env.message_type.requires_order_id then
    match tag_value tags "d" with
    | none => Except.error (TradeListingDvmError.MissingTag "d")
    | some d =>
        if some d ≠ env.order_id then
          Except.error (TradeListingDvmError.TagMismatch "d")
        else Except.ok ()
  else Except.ok ()

/-- Outcome of the common validation prefix of `handle_event`. -/
inductive CommonResult
  | selfAuthored
  | proceed (listing_addr : String) (parsed : TradeListingAddress)
      (order_id : Option String)
deriving DecidableEq, Repr

/-- The common validation prefix of `handle_event` (`dvm.rs` lines 75-118):
kind support, self-author no-op, `p` recipient tag, envelope validation,
kind cross-check, `a` and `d` tag cross-checks, listing-address parse and
kind-30402 check.  The serde parse of the content is elided: the envelope
arrives parsed. -/
def handle_event_common (rhi_pubkey : String) (ev : NostrEvent)
    (tags : List (List String)) (env : TradeListingEnvelope) :
    Except TradeListingDvmError CommonResult :=
  match ev.kind with
  | NostrKind.Other => Except.error TradeListingDvmError.UnsupportedKind
  | NostrKind.Custom kind =>
    if ¬ is_trade_listing_dvm_kind kind then
      Except.error TradeListingDvmError.UnsupportedKind
    else if ev.pubkey = rhi_pubkey then Except.ok CommonResult.selfAuthored
    else if ¬ tag_has_value tags "p" rhi_pubkey then
      Except.error TradeListingDvmError.MissingRecipient
    else
      match envelope_validate env with
      | Except.error e => Except.error (TradeListingDvmError.InvalidEnvelope e)
      | Except.ok _ =>
        if env.message_type.kind ≠ kind then
          Except.error (TradeListingDvmError.TagMismatch "kind")
        else
          match tag_value tags "a" with
          | none => Except.error (TradeListingDvmError.MissingTag "a")
          | some a =>
            if a ≠ env.listing_addr then
              Except.error (TradeListingDvmError.TagMismatch "a")
            else
              match handle_event_tag_d tags env with
              | Except.error e => Except.error e
              | Except.ok _ =>
                match TradeListingAddress.parse a with
                | none => Except.error TradeListingDvmError.InvalidListingAddr
                | some parsed =>
                    if parsed.kind ≠ 30402 then
                      Except.error TradeListingDvmError.InvalidListingAddr
                    else
                      Except.ok (CommonResult.proceed a parsed env.order_id)

/-- C8: for a supported-kind event not authored by the daemon, the common
validation yields `MissingRecipient` when no `p` tag carries the daemon
pubkey; with `p` present, a validated envelope and a matching kind, a
missing `a` tag yields `MissingTag "a"`, a present `a` tag differing from
the envelope's listing address yields `TagMismatch "a"`, and for message
types requiring an order id a missing `d` tag yields `MissingTag "d"`
while a present `d` tag differing from the envelope's order id yields
`TagMismatch "d"`. -/
theorem C8_common_validation (rhi : String) (ev : NostrEvent)
    (tags : List (List String)) (env : TradeListingEnvelope) (kind : Nat)
    (hkind : ev.kind = NostrKind.Custom kind)
    (hsupp : is_trade_listing_dvm_kind kind = true)
    (hauth : ev.pubkey ≠ rhi) :
    (tag_has_value tags "p" rhi = false →
      handle_event_common rhi ev tags env =
        Except.error TradeListingDvmError.MissingRecipient) ∧
    (tag_has_value tags "p" rhi = true →
     envelope_validate env = Except.ok () →
     env.message_type.kind = kind →
      (tag_value tags "a" = none →
        handle_event_common rhi ev tags env =
          Except.error (TradeListingDvmError.MissingTag "a")) ∧
      (∀ a, tag_value tags "a" = some a → a ≠ env.listing_addr →
        handle_event_common rhi ev tags env =
          Except.error (TradeListingDvmError.TagMismatch "a")) ∧
      (tag_value tags "a" = some env.listing_addr →
       env.message_type.requires_order_id = true →
        (tag_value tags "d" = none →
          handle_event_common rhi ev tags env =
            Except.error (TradeListingDvmError.MissingTag "d")) ∧
        (∀ d, tag_value tags "d" = some d → some d ≠ env.order_id →
          handle_event_common rhi ev tags env =
            Except.error (TradeListingDvmError.TagMismatch "d")))) := by
  constructor
  · intro hp
    simp [handle_event_common, hkind, hsupp, hauth, hp]
  · intro hp hv hk
    refine ⟨?_, ?_, ?_⟩
    · intro ha
      simp [handle_event_common, hkind, hsupp, hauth, hp, hv, hk, ha]
    · intro a ha hne
      simp [handle_event_common, hkind, hsupp, hauth, hp, hv, hk, ha, hne]
    · intro ha hreq
      constructor
      · intro hd
        simp [handle_event_common, handle_event_tag_d, hkind, hsupp, hauth,
          hp, hv, hk, ha, hreq, hd]
      · intro d hd hne
        simp [handle_event_common, handle_event_tag_d, hkind, hsupp, hauth,
          hp, hv, hk, ha, hreq, hd, hne]

/-- An order-response event for the common-validation witness. -/
def evC8 : NostrEvent :=
  { id := "e9", pubkey := "B", created_at := 21, kind := NostrKind.Custom 5804 }

/-- The inbound envelope for the common-validation witness. -/
def envC8 : TradeListingEnvelope :=
  { message_type := TradeListingMessageType.OrderResponse,
    listing_addr := "30402:S:l1", order_id := some "ord-1" }

/-- Witness for C8 at a concrete input: with `p` and `a` present and no
`d` tag on an order-bearing message, validation fails with
`MissingTag "d"`. -/
theorem C8_common_validation_witness :
    handle_event_common "R" evC8 [["p", "R"], ["a", "30402:S:l1"]] envC8 =
      Except.error (TradeListingDvmError.MissingTag "d") :=
  ((((C8_common_validation "R" evC8 [["p", "R"], ["a", "30402:S:l1"]] envC8
    5804 (by decide) (by decide) (by decide)).2 (by decide) (by decide)
    (by decide)).2.2 (by decide) (by decide)).1 (by decide))
